import Mathlib

/-!
Verification development for the movie-maestro backend
(`src/backend/src`): conversation-scoped entity resolution,
citation aggregation and filtering, query routing, related-query
generation and the conversation store.

The Python services are shallowly embedded as pure Lean functions.
External collaborators (the TMDb / Wikipedia HTTP clients and the
text-generation LLM) are modelled as oracle functions supplied in an
environment record; the per-process mutable dictionaries become
explicit state records threaded through the functions.  Python
`dict`s are modelled as insertion-ordered association lists with
update-in-place semantics, matching CPython dict behaviour.
-/

set_option maxRecDepth 10000

namespace MovieMaestro

/-! ## Data model (`src/backend/src/models.py`) -/

/-- `models.Citation`.  The pydantic model declares `title` as optional,
but every construction site in the services supplies a title string, so
it is modelled as a plain `String`. -/
structure Citation where
  text : String
  url : String
  title : String
deriving DecidableEq, Repr

/-- `models.ImageData`. -/
structure ImageData where
  url : String
  alt : String
  caption : Option String
deriving DecidableEq, Repr

/-- `models.RelatedQuery`. -/
structure RelatedQuery where
  text : String
deriving DecidableEq, Repr

/-- The pydantic field defaults `timestamp: datetime = datetime.now()`
(in `Message`) and `created_at` / `updated_at` (in `Conversation`) are
evaluated once, when `models.py` is imported; every instance that does
not override them shares that single constant instant.  Time is
abstracted to `Nat` and that constant to `0`. -/
def moduleLoadTime : Nat := 0

/-- `models.Message`.  `timestamp` is the shared module-load default
for every message the services construct (none overrides it). -/
structure Message where
  role : String
  content : String
  timestamp : Nat := moduleLoadTime
  error : Option Bool := none
  citations : Option (List Citation) := none
  images : Option (List ImageData) := none
deriving DecidableEq, Repr

/-- `models.Conversation`. -/
structure Conversation where
  id : String
  messages : List Message
  created_at : Nat := moduleLoadTime
  updated_at : Nat := moduleLoadTime
deriving DecidableEq, Repr

/-! ## Python-semantics helpers -/

/-- Python `str.lower()` (ASCII range; every string the claims touch is
ASCII). -/
def pyLower (s : String) : String := ⟨s.data.map Char.toLower⟩

/-- Python truthiness of an optional string argument such as
`conversation_id` (`None` and `""` are falsy). -/
def cidTruthy : Option String → Bool
  | none => false
  | some s => s ≠ ""

/-- Association-list lookup, first match: Python `d[k]` / `k in d`. -/
def alookup {α : Type} (m : List (String × α)) (k : String) : Option α :=
  match m with
  | [] => none
  | (k', v) :: rest => if k' = k then some v else alookup rest k

/-- Association-list store with CPython dict semantics: an existing key
is updated in place (keeping its position), a new key is appended. -/
def astore {α : Type} (m : List (String × α)) (k : String) (v : α) :
    List (String × α) :=
  match m with
  | [] => [(k, v)]
  | (k', v') :: rest =>
      if k' = k then (k, v) :: rest else (k', v') :: astore rest k v

/-- Key membership in an association list. -/
def akey {α : Type} (m : List (String × α)) (k : String) : Bool :=
  (alookup m k).isSome

/-- Digits-to-number: Python `int("...")` on a nonempty digit string. -/
def digitsToNat (ds : List Char) : Nat :=
  ds.foldl (fun acc c => acc * 10 + (c.toNat - '0'.toNat)) 0

/-- Longest digit run at the head of a character list. -/
def takeDigits : List Char → List Char × List Char
  | [] => ([], [])
  | c :: cs =>
      if c.isDigit then
        let p := takeDigits cs
        (c :: p.1, p.2)
      else ([], c :: cs)

theorem takeDigits_snd_length (l : List Char) :
    (takeDigits l).2.length ≤ l.length := by
  induction l with
  | nil => simp [takeDigits]
  | cons c cs ih =>
      simp only [takeDigits]
      by_cases h : c.isDigit
      · simpa [h] using Nat.le_succ_of_le ih
      · simp [h]

/-- Fueled scanner for `findMarkers`; one unit of fuel is spent per
consumed character, so fuel equal to the list length is sufficient. -/
def findMarkersAux : Nat → List Char → List Nat
  | 0, _ => []
  | _, [] => []
  | fuel + 1, c :: cs =>
      if c = '[' then
        match takeDigits cs with
        | ([], _) => findMarkersAux fuel cs
        | (d :: ds, rest) =>
            match rest with
            | ']' :: rest' => digitsToNat (d :: ds) :: findMarkersAux fuel rest'
            | _ => findMarkersAux fuel cs
      else findMarkersAux fuel cs

/-- All matches of the regex `\[(\d+)\]` in a character stream, left to
right and non-overlapping, each parsed with `int` — the scan the
citation filter performs with `re.findall`.  On a failed match the
scan resumes one character after the match start, as the regex engine
does. -/
def findMarkers (l : List Char) : List Nat := findMarkersAux l.length l

/-! ## CPython integer-set model

`_filter_unused_citations` iterates over a Python `set` of the parsed
marker integers, so the order of the filtered citations is CPython's
set iteration order.  This models CPython's open-addressing set for
nonnegative small integers: `hash(n) = n mod (2^61 - 1)`, initial
table of 8 slots, probe sequence with `LINEAR_PROBES = 9` and
`PERTURB_SHIFT = 5`, growth to `4 * used` slots (rounded up to a power
of two) once `fill * 5 >= mask * 3`, and iteration in slot order.
`& mask` is written `% table-size` (the size is a power of two). -/

/-- CPython `hash` on a nonnegative int. -/
def pyHash (n : Nat) : Nat := n % (2 ^ 61 - 1)

def LINEAR_PROBES : Nat := 9

def PERTURB_SHIFT : Nat := 5

/-- A CPython set of ints: the slot table (length a power of two) and
the number of used entries (no deletions occur, so `fill = used`). -/
structure PyIntSet where
  table : List (Option Nat)
  used : Nat
deriving DecidableEq, Repr

/-- Probe one slot during `set_add_entry`: `some (true, i)` means the
key is already present at slot `i`, `some (false, i)` an unused slot,
`none` a collision (occupied by a different key). -/
def slotCheck (table : List (Option Nat)) (key i : Nat) :
    Option (Bool × Nat) :=
  match table.getD i none with
  | none => some (false, i)
  | some k => if k = key then some (true, i) else none

/-- The do-while scan of `set_add_entry`: slots `i, i+1, ..., i+n`. -/
def innerScan (table : List (Option Nat)) (key : Nat) :
    Nat → Nat → Option (Bool × Nat)
  | i, 0 => slotCheck table key i
  | i, n + 1 =>
      match slotCheck table key i with
      | some r => some r
      | none => innerScan table key (i + 1) n

/-- The outer probe loop of `set_add_entry` (fueled; the table always
has a free slot, so the fuel is never exhausted on reachable states). -/
def setProbe (table : List (Option Nat)) (size key : Nat) :
    Nat → Nat → Nat → Option (Bool × Nat)
  | 0, _, _ => none
  | fuel + 1, i, perturb =>
      let probes := if i + LINEAR_PROBES ≤ size - 1 then LINEAR_PROBES else 0
      match innerScan table key i probes with
      | some r => some r
      | none =>
          let perturb' := perturb / 2 ^ PERTURB_SHIFT
          setProbe table size key fuel ((i * 5 + 1 + perturb') % size) perturb'

/-- The probe loop of `set_insert_clean` (empty-slot search only). -/
def cleanScan (table : List (Option Nat)) : Nat → Nat → Option Nat
  | i, 0 => match table.getD i none with | none => some i | some _ => none
  | i, n + 1 =>
      match table.getD i none with
      | none => some i
      | some _ => cleanScan table (i + 1) n

/-- The outer loop of `set_insert_clean` (fueled). -/
def cleanProbe (table : List (Option Nat)) (size : Nat) :
    Nat → Nat → Nat → Option Nat
  | 0, _, _ => none
  | fuel + 1, i, perturb =>
      let probes := if i + LINEAR_PROBES ≤ size - 1 then LINEAR_PROBES else 0
      match cleanScan table i probes with
      | some r => some r
      | none =>
          let perturb' := perturb / 2 ^ PERTURB_SHIFT
          cleanProbe table size fuel ((i * 5 + 1 + perturb') % size) perturb'

/-- `set_insert_clean`: place a key in a table that cannot already
contain it. -/
def cleanInsert (table : List (Option Nat)) (key : Nat) :
    List (Option Nat) :=
  let size := table.length
  let h := pyHash key
  match cleanProbe table size (size * 2 + 64) (h % size) h with
  | some i => table.set i (some key)
  | none => table

/-- `newsize = PySet_MINSIZE; while newsize <= minused: newsize <<= 1`. -/
def growSize : Nat → Nat → Nat → Nat
  | 0, cur, _ => cur
  | fuel + 1, cur, minused => if cur ≤ minused then growSize fuel (cur * 2) minused else cur

/-- `set_table_resize`: re-insert every active entry, in slot order,
into a fresh table of `growSize` slots. -/
def setResize (s : PyIntSet) (minused : Nat) : PyIntSet :=
  let newsize := growSize 64 8 minused
  let newtable :=
    s.table.foldl
      (fun t e => match e with | none => t | some k => cleanInsert t k)
      (List.replicate newsize (none : Option Nat))
  ⟨newtable, s.used⟩

/-- `set_add_entry`: probe, insert if absent, then resize when
`fill * 5 >= mask * 3` (to `used * 4` slots; `used <= 50000` here). -/
def setAdd (s : PyIntSet) (key : Nat) : PyIntSet :=
  let size := s.table.length
  let h := pyHash key
  match setProbe s.table size key (size * 2 + 64) (h % size) h with
  | some (true, _) => s
  | some (false, i) =>
      let s' : PyIntSet := ⟨s.table.set i (some key), s.used + 1⟩
      if s'.used * 5 < (size - 1) * 3 then s' else setResize s' (s'.used * 4)
  | none => s

/-- The empty set: 8 unused slots. -/
def pySetEmpty : PyIntSet := ⟨List.replicate 8 none, 0⟩

/-- `set(xs)` for a list of nonnegative ints, in generation order. -/
def pySetOfList (xs : List Nat) : PyIntSet := xs.foldl setAdd pySetEmpty

/-- Set iteration order: the table scanned in slot order. -/
def pySetToList (s : PyIntSet) : List Nat := s.table.filterMap id

/-! ## CitationFilter (`ChatService._filter_unused_citations`) -/

/-- `ChatService._filter_unused_citations`: empty citation list is a
no-op; otherwise collect the `[k]` markers of the response text,
deduplicate them through a Python `set`, and keep `citations[k-1]` for
each in-range `k` in set-iteration order.  The source guard is
`0 <= idx - 1 < len(citations)` over Python ints; markers are
nonnegative, so it is `1 <= idx ∧ idx - 1 < len`. -/
def filter_unused_citations (response_text : String)
    (citations : List Citation) : List Citation :=
  if citations = [] then []
  else
    let citation_matches := findMarkers response_text.data
    let used_citation_indices := pySetToList (pySetOfList citation_matches)
    used_citation_indices.foldl
      (fun acc idx =>
        if 1 ≤ idx ∧ idx - 1 < citations.length then
          acc ++ [citations.getD (idx - 1) ⟨"", "", ""⟩]
        else acc)
      []

/-! ## TMDb service (`src/backend/src/services/tmdb_service.py`)

The HTTP client methods `search_tmdb`, `fetch_tmdb_data`,
`search_person` and `fetch_person_data` and the two LLM chains are
external collaborators, supplied as oracle functions in `TMDbEnv`.
A search oracle returns `none` for an HTTP error or a missing
`results` key and `some rs` for the ranked result list; a detail
oracle returns `none` for an HTTP error.  The analyzer oracle returns
`.error` for a transport failure of the LLM call (uncaught in the
source) and `.ok none` when the returned text fails to parse as JSON
(caught).  Scalar JSON fields that are only ever rendered into
strings (`vote_average`) are modelled by their rendered form. -/

/-- One entry of a TMDb movie-search `results` list (the fields the
service reads). -/
structure MovieSearchResult where
  id : Int
  title : Option String
  overview : Option String
  release_date : Option String
  vote_average : Option String
  poster_path : Option String
deriving DecidableEq, Repr

/-- A TMDb movie-detail record (the fields the service reads;
`credits_crew` is the `(name, job)` projection of `credits.crew`,
`watch_providers` is `some` exactly when the nested key chain
`watch/providers -> results -> US -> flatrate` is present). -/
structure MovieDetail where
  id : Int
  title : String
  overview : String
  credits_crew : List (String × String)
  credits_cast : List String
  keywords : List String
  watch_providers : Option (List String)
  release_date : Option String
  genres : List String
  vote_average : Option String
  poster_path : Option String
  backdrops : List String
deriving DecidableEq, Repr

/-- One entry of a TMDb person-search `results` list. -/
structure PersonSearchResult where
  id : Int
  name : Option String
  known_for_department : Option String
  profile_path : Option String
deriving DecidableEq, Repr

/-- One movie credit of a person (`title`, `job`, `popularity`; the
popularity score is only compared for ordering and is modelled as an
integer). -/
structure PersonCredit where
  title : Option String
  job : Option String
  popularity : Int
deriving DecidableEq, Repr

/-- A TMDb person-detail record (the fields the service reads;
`crew_credits` / `cast_credits` are `some` exactly when
`movie_credits.crew` / `movie_credits.cast` are present, `profiles`
is `some` exactly when `images.profiles` is present). -/
structure PersonDetail where
  id : Int
  name : String
  biography : Option String
  birthday : Option String
  place_of_birth : Option String
  crew_credits : Option (List PersonCredit)
  cast_credits : Option (List PersonCredit)
  known_for_department : Option String
  profile_path : Option String
  profiles : Option (List (Option String))
deriving DecidableEq, Repr

/-- The parsed JSON reply of the query-analyzer chain, with the
`analysis.get(..., default)` defaults already applied. -/
structure MovieAnalysis where
  needs_movie_data : Bool := false
  movie_titles : List String := []
  references_previous_movies : Bool := false
  needs_person_data : Bool := false
  person_names : List String := []
  references_previous_people : Bool := false
deriving DecidableEq, Repr

/-- External collaborators of `TMDbService`. -/
structure TMDbEnv where
  search_tmdb : String → Option (List MovieSearchResult)
  fetch_tmdb_data : Int → Option MovieDetail
  search_person : String → Option (List PersonSearchResult)
  fetch_person_data : Int → Option PersonDetail
  analyzer : String → String → String → Except String (Option MovieAnalysis)
  response_generator : String → String → Except String String

/-- One history record of `movie_history[cid]` (the dict stored at
line 669: `data`, `citation`, `images`, `title`). -/
structure MovieRecord where
  data : String
  citation : Citation
  images : List ImageData
  title : String
deriving DecidableEq, Repr

/-- One history record of `person_history[cid]`. -/
structure PersonRecord where
  data : String
  citation : Citation
  images : List ImageData
  name : String
deriving DecidableEq, Repr

/-- The four per-process dictionaries of `TMDbService`. -/
structure TMDbState where
  movie_history : List (String × List (String × MovieRecord))
  conversation_movies : List (String × List String)
  person_history : List (String × List (String × PersonRecord))
  conversation_people : List (String × List String)
deriving DecidableEq, Repr

/-- An external HTTP request issued by the TMDb service. -/
inductive ApiCall where
  | searchMovie (q : String)
  | fetchMovie (id : Int)
  | searchPerson (q : String)
  | fetchPerson (id : Int)
deriving DecidableEq, Repr

def base_image_url : String := "https://image.tmdb.org/t/p/original/"

/-- `TMDbService.format_movie_data`. -/
def format_movie_data (m : MovieDetail) : String :=
  let directors := (m.credits_crew.filter fun c => c.2 = "Director").map (·.1)
  let cast := m.credits_cast.take 5
  let themes := m.keywords
  let watch_providers := m.watch_providers.getD []
  let formatted_data :=
    ["Title: " ++ m.title,
     "Overview: " ++ m.overview,
     "Director(s): " ++ String.intercalate ", " directors,
     "Main Cast: " ++ String.intercalate ", " cast,
     "Release Date: " ++ m.release_date.getD "Unknown",
     "Genres: " ++ String.intercalate ", " m.genres,
     "Themes/Keywords: " ++ String.intercalate ", " themes,
     "Rating: " ++ m.vote_average.getD "N/A" ++ "/10"]
  let formatted_data :=
    if watch_providers ≠ [] then
      formatted_data ++ ["Available on: " ++ String.intercalate ", " watch_providers]
    else formatted_data
  String.intercalate "\n" formatted_data

/-- Stable insertion into a descending-by-popularity list: the new
element goes after every element of popularity greater than or equal
to its own. -/
def insertByPopDesc (x : PersonCredit) : List PersonCredit → List PersonCredit
  | [] => [x]
  | y :: ys =>
      if x.popularity ≤ y.popularity then y :: insertByPopDesc x ys
      else x :: y :: ys

/-- Python `list.sort(key=..., reverse=True)` on popularity: a stable
descending sort (elements of equal popularity keep their original
order). -/
def sortByPopularity (l : List PersonCredit) : List PersonCredit :=
  l.foldl (fun acc x => insertByPopDesc x acc) []

/-- `TMDbService.format_person_data`. -/
def format_person_data (p : PersonDetail) : String :=
  let name := p.name
  let biography := p.biography.getD "No biography available."
  let birthday := p.birthday.getD "Unknown"
  let place_of_birth := p.place_of_birth.getD "Unknown"
  let directed_movies :=
    match p.crew_credits with
    | some crew =>
        ((sortByPopularity (crew.filter fun c => c.job = some "Director")).take 5).map
          (fun c => c.title.getD "")
    | none => []
  let acted_movies :=
    match p.cast_credits with
    | some cast => ((sortByPopularity cast).take 10).map fun c => c.title.getD ""
    | none => []
  let formatted_data :=
    ["Name: " ++ name,
     "Born: " ++ birthday ++ " in " ++ place_of_birth,
     "Biography: " ++ biography]
  let formatted_data :=
    if directed_movies ≠ [] then
      formatted_data ++ ["Notable Directed Films: " ++ String.intercalate ", " directed_movies]
    else formatted_data
  let formatted_data :=
    if acted_movies ≠ [] then
      formatted_data ++ ["Notable Acting Roles: " ++ String.intercalate ", " acted_movies]
    else formatted_data
  let formatted_data :=
    match p.known_for_department with
    | some d => formatted_data ++ ["Known for: " ++ d]
    | none => formatted_data
  String.intercalate "\n" formatted_data

/-- `TMDbService.extract_images` (with the default `max_images = 3`). -/
def extract_images (m : MovieDetail) : List ImageData :=
  let posterImgs : List ImageData :=
    match m.poster_path with
    | some pp =>
        if pp ≠ "" then
          [⟨base_image_url ++ pp, m.title ++ " poster",
            some ("Official poster for " ++ m.title)⟩]
        else []
    | none => []
  posterImgs ++ (m.backdrops.take 2).map fun fp =>
    ⟨base_image_url ++ fp, m.title ++ " scene", some ("Scene from " ++ m.title)⟩

/-- `TMDbService.extract_person_images` (default `max_images = 2`). -/
def extract_person_images (p : PersonDetail) : List ImageData :=
  let name := p.name
  let profileImgs : List ImageData :=
    match p.profile_path with
    | some pp =>
        if pp ≠ "" then
          [⟨base_image_url ++ pp, name ++ " profile",
            some ("Official profile for " ++ name)⟩]
        else []
    | none => []
  let extra : List ImageData :=
    match p.profiles with
    | some profiles =>
        (profiles.take 1).filterMap fun fp =>
          match fp with
          | some f =>
              if f ≠ "" ∧ some f ≠ p.profile_path then
                some ⟨base_image_url ++ f, name ++ " image", some ("Image of " ++ name)⟩
              else none
          | none => none
    | none => []
  profileImgs ++ extra

/-- `TMDbService.create_citations`. -/
def create_citations (m : MovieDetail) : List Citation :=
  [⟨m.overview, "https://www.themoviedb.org/movie/" ++ toString m.id,
    m.title ++ " - TMDb"⟩]

/-- `TMDbService.create_person_citations`. -/
def create_person_citations (p : PersonDetail) : List Citation :=
  [⟨p.biography.getD "No biography available.",
    "https://www.themoviedb.org/person/" ++ toString p.id,
    p.name ++ " - TMDb"⟩]

/-- The degraded movie block built from a bare search result when the
detail fetch fails (the indented triple-quoted f-string of lines
623-628, reproduced byte for byte). -/
def fallbackMovieInfo (top : MovieSearchResult) : String :=
  "\n                Title: " ++ top.title.getD "Unknown" ++
  "\n                Overview: " ++ top.overview.getD "No overview available" ++
  "\n                Release Date: " ++ top.release_date.getD "Unknown" ++
  "\n                Rating: " ++ top.vote_average.getD "Not rated" ++
  " (out of 10)\n                "

/-- The degraded person block of lines 811-814. -/
def fallbackPersonInfo (top : PersonSearchResult) : String :=
  "\n                Name: " ++ top.name.getD "Unknown" ++
  "\n                Known For: " ++ top.known_for_department.getD "Unknown" ++
  "\n                "

/-- Accumulator for the three passes of `_process_movie_data`: the
output lists, the processed-key set, the mutated service state and
the log of external requests. -/
structure MovieAcc where
  data : List String
  cits : List Citation
  imgs : List ImageData
  processed : List String
  st : TMDbState
  calls : List ApiCall

/-- The history pass of `_process_movie_data` (lines 570-592), one
normalized title.  The source indexes `conversation_movies[cid]`
unguarded here; a missing key (impossible after the initialization in
`process_movie_query`) is modelled as `[]`. -/
def movieHistStep (cid : String) (acc : MovieAcc) (kv : String × String) : MovieAcc :=
  let normalized_title := kv.1
  let hist := (alookup acc.st.movie_history cid).getD []
  match alookup hist normalized_title with
  | none => acc
  | some history =>
      if normalized_title ∈ acc.processed then acc
      else
        let actual_title := history.title
        let conv := (alookup acc.st.conversation_movies cid).getD []
        { data := acc.data ++
            ["Movie #" ++ toString (acc.data.length + 1) ++ " - " ++ actual_title ++
             ":\n" ++ history.data],
          cits := acc.cits ++ [history.citation],
          imgs := acc.imgs ++ history.images,
          processed := acc.processed ++ [normalized_title],
          st :=
            if actual_title ∈ conv then acc.st
            else
              let cm' := astore acc.st.conversation_movies cid (conv ++ [actual_title])
              { acc.st with conversation_movies := cm' },
          calls := acc.calls }

/-- Shared tail of the new-movie branch (lines 656-678): record the
tuple, mark the key processed, store the history record and register
the canonical title. -/
def movieFinishNew (conversation_id : Option String) (cid : String) (acc : MovieAcc)
    (normalized_title actual_title movie_info : String) (citation : Citation)
    (movie_images : List ImageData) : MovieAcc :=
  let acc :=
    { acc with
      data := acc.data ++
        ["Movie #" ++ toString (acc.data.length + 1) ++ " - " ++ actual_title ++
         ":\n" ++ movie_info],
      cits := acc.cits ++ [citation],
      imgs := acc.imgs ++ movie_images,
      processed := acc.processed ++ [normalized_title] }
  if cidTruthy conversation_id then
    let hist := (alookup acc.st.movie_history cid).getD []
    let mh' :=
      astore acc.st.movie_history cid
        (astore hist normalized_title ⟨movie_info, citation, movie_images, actual_title⟩)
    let st := { acc.st with movie_history := mh' }
    let conv := (alookup st.conversation_movies cid).getD []
    let st :=
      if actual_title ∈ conv then st
      else
        let cm' := astore st.conversation_movies cid (conv ++ [actual_title])
        { st with conversation_movies := cm' }
    { acc with st := st }
  else acc

/-- The new-lookup pass of `_process_movie_data` (lines 595-678), one
title. -/
def movieNewStep (env : TMDbEnv) (conversation_id : Option String) (cid : String)
    (acc : MovieAcc) (title : String) : MovieAcc :=
  let normalized_title := pyLower title
  if normalized_title ∈ acc.processed then acc
  else
    let acc := { acc with calls := acc.calls ++ [ApiCall.searchMovie title] }
    match env.search_tmdb title with
    | none => acc
    | some [] => acc
    | some (top :: _) =>
        let acc := { acc with calls := acc.calls ++ [ApiCall.fetchMovie top.id] }
        match env.fetch_tmdb_data top.id with
        | none =>
            let actual_title := top.title.getD title
            let movie_info := fallbackMovieInfo top
            let citation : Citation :=
              ⟨top.overview.getD "No overview available",
               "https://www.themoviedb.org/movie/" ++ toString top.id,
               top.title.getD "Unknown" ++ " - TMDb"⟩
            let movie_images : List ImageData :=
              match top.poster_path with
              | some pp =>
                  if pp ≠ "" then
                    [⟨base_image_url ++ pp, top.title.getD "Unknown" ++ " poster",
                      some ("Official poster for " ++ top.title.getD "Unknown")⟩]
                  else []
              | none => []
            movieFinishNew conversation_id cid acc normalized_title actual_title
              movie_info citation movie_images
        | some movie_data =>
            let movie_info := format_movie_data movie_data
            let actual_title := movie_data.title
            let citation := (create_citations movie_data).headD ⟨"", "", ""⟩
            let movie_images := extract_images movie_data
            movieFinishNew conversation_id cid acc normalized_title actual_title
              movie_info citation movie_images

/-- The implicit-reference replay pass of `_process_movie_data`
(lines 680-711), one previously discussed title. -/
def movieReplayStep (cid : String) (acc : MovieAcc) (prev_title : String) : MovieAcc :=
  let prev_title_lower := pyLower prev_title
  if prev_title_lower ∈ acc.processed then acc
  else
    let hist := (alookup acc.st.movie_history cid).getD []
    match hist.find? (fun kv => pyLower kv.2.title = prev_title_lower) with
    | none => acc
    | some (_, movie_info) =>
        { acc with
          data := acc.data ++
            ["Movie #" ++ toString (acc.data.length + 1) ++ " - " ++ prev_title ++
             ":\n" ++ movie_info.data],
          cits := acc.cits ++ [movie_info.citation],
          imgs := acc.imgs ++ movie_info.images,
          processed := acc.processed ++ [prev_title_lower] }

/-- `TMDbService._process_movie_data`. -/
def process_movie_data (env : TMDbEnv) (movie_titles0 : List String)
    (references_previous_movies : Bool) (conversation_id : Option String)
    (st : TMDbState) :
    (List String × List Citation × List ImageData) × TMDbState × List ApiCall :=
  let cid := conversation_id.getD ""
  let movie_titles :=
    if references_previous_movies && cidTruthy conversation_id &&
        akey st.conversation_movies cid then
      ((alookup st.conversation_movies cid).getD []).foldl
        (fun ts p => if p ∈ ts then ts else ts ++ [p]) movie_titles0
    else movie_titles0
  if movie_titles = [] then (([], [], []), st, [])
  else
    let normalized_titles :=
      movie_titles.foldl (fun m t => astore m (pyLower t) t) []
    let acc : MovieAcc := ⟨[], [], [], [], st, []⟩
    let acc :=
      if cidTruthy conversation_id && akey st.movie_history cid then
        normalized_titles.foldl (movieHistStep cid) acc
      else acc
    let acc := movie_titles.foldl (movieNewStep env conversation_id cid) acc
    let acc :=
      if references_previous_movies && cidTruthy conversation_id &&
          akey acc.st.conversation_movies cid then
        ((alookup acc.st.conversation_movies cid).getD []).foldl
          (movieReplayStep cid) acc
      else acc
    ((acc.data, acc.cits, acc.imgs), acc.st, acc.calls)

/-- Accumulator for `_process_person_data`. -/
structure PersonAcc where
  data : List String
  cits : List Citation
  imgs : List ImageData
  processed : List String
  st : TMDbState
  calls : List ApiCall

/-- The history pass of `_process_person_data` (lines 760-780). -/
def personHistStep (cid : String) (acc : PersonAcc) (kv : String × String) : PersonAcc :=
  let normalized_name := kv.1
  let hist := (alookup acc.st.person_history cid).getD []
  match alookup hist normalized_name with
  | none => acc
  | some history =>
      if normalized_name ∈ acc.processed then acc
      else
        let actual_name := history.name
        let conv := (alookup acc.st.conversation_people cid).getD []
        { data := acc.data ++
            ["Person #" ++ toString (acc.data.length + 1) ++ " - " ++ actual_name ++
             ":\n" ++ history.data],
          cits := acc.cits ++ [history.citation],
          imgs := acc.imgs ++ history.images,
          processed := acc.processed ++ [normalized_name],
          st :=
            if actual_name ∈ conv then acc.st
            else
              let cp' := astore acc.st.conversation_people cid (conv ++ [actual_name])
              { acc.st with conversation_people := cp' },
          calls := acc.calls }

/-- Shared tail of the new-person branch (lines 844-872). -/
def personFinishNew (conversation_id : Option String) (cid : String) (acc : PersonAcc)
    (normalized_name actual_name person_info : String) (citation : Citation)
    (person_images : List ImageData) : PersonAcc :=
  let acc :=
    { acc with
      data := acc.data ++
        ["Person #" ++ toString (acc.data.length + 1) ++ " - " ++ actual_name ++
         ":\n" ++ person_info],
      cits := acc.cits ++ [citation],
      imgs := acc.imgs ++ person_images,
      processed := acc.processed ++ [normalized_name] }
  if cidTruthy conversation_id then
    let hist := (alookup acc.st.person_history cid).getD []
    let ph' :=
      astore acc.st.person_history cid
        (astore hist normalized_name ⟨person_info, citation, person_images, actual_name⟩)
    let st := { acc.st with person_history := ph' }
    let conv := (alookup st.conversation_people cid).getD []
    let st :=
      if actual_name ∈ conv then st
      else
        let cp' := astore st.conversation_people cid (conv ++ [actual_name])
        { st with conversation_people := cp' }
    { acc with st := st }
  else acc

/-- The new-lookup pass of `_process_person_data` (lines 783-872), one
name. -/
def personNewStep (env : TMDbEnv) (conversation_id : Option String) (cid : String)
    (acc : PersonAcc) (name : String) : PersonAcc :=
  let normalized_name := pyLower name
  if normalized_name ∈ acc.processed then acc
  else
    let acc := { acc with calls := acc.calls ++ [ApiCall.searchPerson name] }
    match env.search_person name with
    | none => acc
    | some [] => acc
    | some (top :: _) =>
        let acc := { acc with calls := acc.calls ++ [ApiCall.fetchPerson top.id] }
        match env.fetch_person_data top.id with
        | none =>
            let actual_name := top.name.getD name
            let person_info := fallbackPersonInfo top
            let citation : Citation :=
              ⟨"Information about " ++ top.name.getD "Unknown",
               "https://www.themoviedb.org/person/" ++ toString top.id,
               top.name.getD "Unknown" ++ " - TMDb"⟩
            let person_images : List ImageData :=
              match top.profile_path with
              | some pp =>
                  if pp ≠ "" then
                    [⟨base_image_url ++ pp, top.name.getD "Unknown" ++ " profile",
                      some ("Profile for " ++ top.name.getD "Unknown")⟩]
                  else []
              | none => []
            personFinishNew conversation_id cid acc normalized_name actual_name
              person_info citation person_images
        | some person_data =>
            let person_info := format_person_data person_data
            let actual_name := person_data.name
            let citation := (create_person_citations person_data).headD ⟨"", "", ""⟩
            let person_images := extract_person_images person_data
            personFinishNew conversation_id cid acc normalized_name actual_name
              person_info citation person_images

/-- The implicit-reference replay pass of `_process_person_data`
(lines 874-905). -/
def personReplayStep (cid : String) (acc : PersonAcc) (prev_name : String) : PersonAcc :=
  let prev_name_lower := pyLower prev_name
  if prev_name_lower ∈ acc.processed then acc
  else
    let hist := (alookup acc.st.person_history cid).getD []
    match hist.find? (fun kv => pyLower kv.2.name = prev_name_lower) with
    | none => acc
    | some (_, person_info) =>
        { acc with
          data := acc.data ++
            ["Person #" ++ toString (acc.data.length + 1) ++ " - " ++ prev_name ++
             ":\n" ++ person_info.data],
          cits := acc.cits ++ [person_info.citation],
          imgs := acc.imgs ++ person_info.images,
          processed := acc.processed ++ [prev_name_lower] }

/-- `TMDbService._process_person_data`. -/
def process_person_data (env : TMDbEnv) (person_names0 : List String)
    (references_previous_people : Bool) (conversation_id : Option String)
    (st : TMDbState) :
    (List String × List Citation × List ImageData) × TMDbState × List ApiCall :=
  let cid := conversation_id.getD ""
  let person_names :=
    if references_previous_people && cidTruthy conversation_id &&
        akey st.conversation_people cid then
      ((alookup st.conversation_people cid).getD []).foldl
        (fun ns p => if p ∈ ns then ns else ns ++ [p]) person_names0
    else person_names0
  if person_names = [] then (([], [], []), st, [])
  else
    let normalized_names :=
      person_names.foldl (fun m n => astore m (pyLower n) n) []
    let acc : PersonAcc := ⟨[], [], [], [], st, []⟩
    let acc :=
      if cidTruthy conversation_id && akey st.person_history cid then
        normalized_names.foldl (personHistStep cid) acc
      else acc
    let acc := person_names.foldl (personNewStep env conversation_id cid) acc
    let acc :=
      if references_previous_people && cidTruthy conversation_id &&
          akey acc.st.conversation_people cid then
        ((alookup acc.st.conversation_people cid).getD []).foldl
          (personReplayStep cid) acc
      else acc
    ((acc.data, acc.cits, acc.imgs), acc.st, acc.calls)

/-- The legend accumulation of `process_movie_query` lines 512-514,
from a running index. -/
def citation_guide_from : Nat → List Citation → String
  | _, [] => ""
  | i, c :: cs =>
      "\n[" ++ toString (i + 1) ++ "] " ++ c.title ++ citation_guide_from (i + 1) cs

/-- The citation reference guide appended to the generation prompt
(`process_movie_query` lines 511-514). -/
def citation_guide (cs : List Citation) : String :=
  "\n\nCitation References:" ++ citation_guide_from 0 cs

/-- `TMDbService.process_movie_query`. -/
def process_movie_query (env : TMDbEnv) (query : String)
    (conversation_id : Option String) (st : TMDbState) :
    Except String (Option String × Option (List Citation) × Option (List ImageData)) ×
      TMDbState × List ApiCall :=
  let cid := conversation_id.getD ""
  let st :=
    if cidTruthy conversation_id && !(akey st.movie_history cid) then
      { st with movie_history := astore st.movie_history cid [],
                conversation_movies := astore st.conversation_movies cid [] }
    else st
  let st :=
    if cidTruthy conversation_id && !(akey st.person_history cid) then
      { st with person_history := astore st.person_history cid [],
                conversation_people := astore st.conversation_people cid [] }
    else st
  let previous_movies :=
    if cidTruthy conversation_id then (alookup st.conversation_movies cid).getD []
    else []
  let previous_people :=
    if cidTruthy conversation_id then (alookup st.conversation_people cid).getD []
    else []
  let previous_movies_str :=
    if previous_movies = [] then "No previously discussed movies"
    else String.intercalate ", " previous_movies
  let previous_people_str :=
    if previous_people = [] then "No previously discussed people"
    else String.intercalate ", " previous_people
  match env.analyzer query previous_movies_str previous_people_str with
  | .error e => (.error e, st, [])
  | .ok none => (.ok (none, none, none), st, [])
  | .ok (some analysis) =>
      if !analysis.needs_movie_data && !analysis.references_previous_movies &&
          !analysis.needs_person_data && !analysis.references_previous_people then
        (.ok (none, none, none), st, [])
      else
        let movieStep :=
          if analysis.needs_movie_data || analysis.references_previous_movies then
            process_movie_data env analysis.movie_titles
              analysis.references_previous_movies conversation_id st
          else (([], [], []), st, [])
        let personStep :=
          if analysis.needs_person_data || analysis.references_previous_people then
            process_person_data env analysis.person_names
              analysis.references_previous_people conversation_id movieStep.2.1
          else (([], [], []), movieStep.2.1, [])
        let all_data := movieStep.1.1 ++ personStep.1.1
        let all_citations := movieStep.1.2.1 ++ personStep.1.2.1
        let all_images := movieStep.1.2.2 ++ personStep.1.2.2
        let st' := personStep.2.1
        let calls := movieStep.2.2 ++ personStep.2.2
        if all_data = [] then (.ok (none, none, none), st', calls)
        else
          match env.response_generator query
              (String.intercalate "\n\n" all_data ++ citation_guide all_citations) with
          | .error e => (.error e, st', calls)
          | .ok response =>
              (.ok (some response, some all_citations, some all_images), st', calls)

/-! ## Wikipedia service (`src/backend/src/services/wikipedia_service.py`) -/

/-- One entry of a Wikipedia search result list (the service only
reads `title`). -/
structure WikiSearchResult where
  title : Option String
  snippet : Option String
deriving DecidableEq, Repr

/-- A Wikipedia article page record (the fields the service reads;
`thumbnail_source` is `some` exactly when a `thumbnail` key is
present, holding `thumbnail.get("source", "")`; `missing` models the
presence of a `missing` key). -/
structure WikiArticle where
  title : Option String
  extract : Option String
  fullurl : Option String
  thumbnail_source : Option String
  missing : Bool := false
deriving DecidableEq, Repr

/-- A value of the process-wide `WikipediaService.cache` dict, which
holds search result lists under `search:` keys and article records
under `article:` keys. -/
inductive WikiCacheVal where
  | searchVal (rs : List WikiSearchResult)
  | articleVal (a : WikiArticle)
deriving DecidableEq, Repr

/-- The two per-process dicts of `WikipediaService`. -/
structure WikiState where
  wiki_history : List (String × List String)
  cache : List (String × WikiCacheVal)
deriving DecidableEq, Repr

/-- An external HTTP request issued by the Wikipedia service. -/
inductive WikiCall where
  | searchReq (q : String) (limit : Nat)
  | fetchReq (title : String)
deriving DecidableEq, Repr

/-- External collaborators of `WikipediaService`: the two HTTP
endpoints (`none` = HTTP error; for `fetch`, `some none` = page
missing / `-1` page id) and the two LLM chains.  The search-term
generator returns the raw reply text together with the outcome of
`json.loads` on it (`none` when parsing raises or yields a
non-list). -/
structure WikiEnv where
  search : String → Nat → Option (List WikiSearchResult)
  fetch : String → Option (Option WikiArticle)
  term_gen : String → Except String (String × Option (List String))
  summarizer : String → String → Except String String

/-- Python whitespace for `str.strip` / `str.split()`. -/
def pyIsSpace (c : Char) : Bool :=
  c = ' ' || c = '\t' || c = '\n' || c = '\r' || c = '\x0b' || c = '\x0c'

/-- Python `str.strip()`. -/
def pyStrip (s : String) : String :=
  ⟨((s.data.dropWhile pyIsSpace).reverse.dropWhile pyIsSpace).reverse⟩

/-- Python `str.rstrip("?")`. -/
def rstripQmark (s : String) : String :=
  ⟨(s.data.reverse.dropWhile (· = '?')).reverse⟩

/-- Structural splitter on a character predicate (the split points are
removed; empty pieces are kept, as with Python `str.split(sep)`). -/
def splitPredAux (p : Char → Bool) : List Char → List Char → List String
  | cur, [] => [⟨cur.reverse⟩]
  | cur, c :: cs =>
      if p c then ⟨cur.reverse⟩ :: splitPredAux p [] cs
      else splitPredAux p (c :: cur) cs

/-- Python `str.split()` (whitespace runs, no empty pieces). -/
def pyWords (s : String) : List String :=
  (splitPredAux pyIsSpace [] s.data).filter (· ≠ "")

/-- The comma-split fallback applied to an unparseable search-term
reply: `[term.strip() for term in text.split(",")]` filtered to
truthy terms. -/
def commaSplitTerms (raw : String) : List String :=
  ((splitPredAux (· = ',') [] raw.data).map pyStrip).filter (· ≠ "")

/-- `WikipediaService.search_wikipedia` (default `limit = 3` at the
call site): cache hit returns the stored list with no request, an
HTTP error returns `[]` uncached, success is cached under
`search:query`.  A `search:` key only ever stores a `searchVal`; the
mismatched constructor case is unreachable and yields `[]`. -/
def search_wikipedia (env : WikiEnv) (st : WikiState) (query : String)
    (limit : Nat) : List WikiSearchResult × WikiState × List WikiCall :=
  let cache_key := "search:" ++ query
  match alookup st.cache cache_key with
  | some (.searchVal rs) => (rs, st, [])
  | some (.articleVal _) => ([], st, [])
  | none =>
      match env.search query limit with
      | none => ([], st, [WikiCall.searchReq query limit])
      | some results =>
          (results, { st with cache := astore st.cache cache_key (.searchVal results) },
           [WikiCall.searchReq query limit])

/-- `WikipediaService.fetch_article_content`: cache hit returns the
stored record with no request; an HTTP error or a missing page
returns `None` uncached; a found page is cached under
`article:title`. -/
def fetch_article_content (env : WikiEnv) (st : WikiState) (page_title : String) :
    Option WikiArticle × WikiState × List WikiCall :=
  let cache_key := "article:" ++ page_title
  match alookup st.cache cache_key with
  | some (.articleVal a) => (some a, st, [])
  | some (.searchVal _) => (none, st, [])
  | none =>
      match env.fetch page_title with
      | none => (none, st, [WikiCall.fetchReq page_title])
      | some none => (none, st, [WikiCall.fetchReq page_title])
      | some (some result) =>
          (some result, { st with cache := astore st.cache cache_key (.articleVal result) },
           [WikiCall.fetchReq page_title])

/-- `WikipediaService.create_citations`. -/
def wiki_create_citations (a : WikiArticle) : List Citation :=
  if a.missing then []
  else
    let url := a.fullurl.getD ("https://en.wikipedia.org/wiki/" ++ a.title.getD "")
    let extract := a.extract.getD "No content available."
    let title := a.title.getD "Wikipedia article"
    [⟨extract, url, title ++ " - Wikipedia"⟩]

/-- `WikipediaService.extract_images`. -/
def wiki_extract_images (a : WikiArticle) : List ImageData :=
  if a.missing then []
  else
    match a.thumbnail_source with
    | some src =>
        let title := a.title.getD "Wikipedia article"
        [⟨src, title ++ " image", some ("Image from Wikipedia article: " ++ title)⟩]
    | none => []

/-- Accumulator for the search-term loop of
`process_wikipedia_query`. -/
structure WikiQAcc where
  data : List String
  cits : List Citation
  imgs : List ImageData
  st : WikiState
  calls : List WikiCall

/-- One iteration of the search-term loop of
`process_wikipedia_query` (lines 319-361). -/
def wikiTermStep (env : WikiEnv) (query : String) (conversation_id : Option String)
    (cid : String) (acc : WikiQAcc) (term : String) : WikiQAcc :=
  let s := search_wikipedia env acc.st term 3
  let acc := { acc with st := s.2.1, calls := acc.calls ++ s.2.2 }
  match s.1 with
  | [] => acc
  | top :: _ =>
      let f := fetch_article_content env acc.st (top.title.getD "")
      let acc := { acc with st := f.2.1, calls := acc.calls ++ f.2.2 }
      match f.1 with
      | none => acc
      | some article_data =>
          let article_text := article_data.extract.getD ""
          if article_text = "" then acc
          else
            let article_text :=
              if (pyWords article_text).length > 150 then
                match env.summarizer query article_text with
                | .ok summarized => summarized
                | .error _ => article_text
              else article_text
            let formatted := "Wikipedia information about '" ++
              article_data.title.getD "" ++ "':\n" ++ article_text
            let st' :=
              if cidTruthy conversation_id then
                let h := (alookup acc.st.wiki_history cid).getD []
                let wh' := astore acc.st.wiki_history cid (h ++ [article_data.title.getD ""])
                { acc.st with wiki_history := wh' }
              else acc.st
            { data := acc.data ++ [formatted],
              cits := acc.cits ++ wiki_create_citations article_data,
              imgs := acc.imgs ++ wiki_extract_images article_data,
              st := st', calls := acc.calls }

/-- `WikipediaService.process_wikipedia_query`.  The term-generator
and summarizer LLM failures are caught in the source, so the function
itself cannot fail. -/
def process_wikipedia_query (env : WikiEnv) (query : String)
    (conversation_id : Option String) (st : WikiState) :
    (Option String × Option (List Citation) × Option (List ImageData)) ×
      WikiState × List WikiCall :=
  let cid := conversation_id.getD ""
  let st :=
    if cidTruthy conversation_id && !(akey st.wiki_history cid) then
      { st with wiki_history := astore st.wiki_history cid [] }
    else st
  let clean_query := rstripQmark (pyStrip query)
  let search_terms :=
    if (pyWords clean_query).length ≤ 5 then [clean_query]
    else
      match env.term_gen query with
      | .error _ => [clean_query]
      | .ok (_, some (t :: ts)) => t :: ts
      | .ok (raw, _) => commaSplitTerms raw
  if search_terms = [] then ((none, none, none), st, [])
  else
    let acc : WikiQAcc := ⟨[], [], [], st, []⟩
    let acc := (search_terms.take 2).foldl (wikiTermStep env query conversation_id cid) acc
    if acc.data = [] then ((none, none, none), acc.st, acc.calls)
    else
      ((some (String.intercalate "\n\n" acc.data), some acc.cits, some acc.imgs),
       acc.st, acc.calls)

/-! ## Query router (`src/backend/src/services/query_router_service.py`) -/

/-- The parsed JSON reply of the router chain: the values of
`analysis.get("tmdb", {}).get("needed", False)` before their `False`
defaults are applied (`none` = key absent). -/
structure RouterParsed where
  tmdb_needed : Option Bool := none
  wikipedia_needed : Option Bool := none
deriving DecidableEq, Repr

/-- The router's LLM-and-parse collaborator: `none` models any
exception inside the `try` block of `route_query` (an LLM transport
failure, `json.loads` raising, or a non-dict reply). -/
structure RouterEnv where
  parse : String → Option RouterParsed

/-- `QueryRouterService.route_query` given the parse outcome: any
failure defaults to using both sources. -/
def route_query : Option RouterParsed → Bool × Bool
  | none => (true, true)
  | some analysis =>
      (analysis.tmdb_needed.getD false, analysis.wikipedia_needed.getD false)

/-- `QueryRouterService.route_query` on a query, through the
collaborator. -/
def route_query_of (env : RouterEnv) (query : String) : Bool × Bool :=
  route_query (env.parse query)

/-! ## Chat service (`src/backend/src/services/chat_service.py`) -/

/-- Naive check that `sub` heads the character list. -/
def listHasLead : List Char → List Char → Bool
  | [], _ => true
  | _ :: _, [] => false
  | c :: cs, d :: ds => c = d && listHasLead cs ds

/-- Naive substring search over character lists. -/
def listHasSub (sub : List Char) : List Char → Bool
  | [] => listHasLead sub []
  | c :: cs => listHasLead sub (c :: cs) || listHasSub sub cs

/-- Python `sub in s` on strings. -/
def strContains (s sub : String) : Bool := listHasSub sub.data s.data

/-- Python `s.startswith(pre)` through character lists. -/
def strStarts (s pre : String) : Bool := listHasLead pre.data s.data

/-- Python `s.endswith(suf)` through character lists. -/
def strEnds (s suf : String) : Bool := listHasLead suf.data.reverse s.data.reverse

/-- `config.Settings` fields read by the chat service. -/
structure ChatSettings where
  ENABLE_TMDB : Bool
  ENABLE_WIKIPEDIA : Bool
deriving DecidableEq, Repr

/-- External collaborators of `ChatService`: the settings, the router
and data-source services, the combine / plain-fallback / related-query
LLM calls and the uuid generator for new conversations. -/
structure ChatEnv where
  settings : ChatSettings
  router : RouterEnv
  tmdb : TMDbEnv
  wiki : WikiEnv
  combine_llm : String → String → Except String String
  fallback_llm : List (String × String) → Except String String
  related_llm : List String → String → Except String String
  new_uuid : String

/-- The mutable state of `ChatService` and its owned services. -/
structure ChatState where
  conversations : List (String × Conversation)
  tmdb : TMDbState
  wiki : WikiState

/-- The successful return tuple of `ChatService.get_response`. -/
structure TurnResult where
  response_text : String
  conversation_id : String
  citations : Option (List Citation)
  images : Option (List ImageData)
  related_queries : List RelatedQuery
deriving DecidableEq, Repr

/-- `ChatService._create_system_prompt` (the triple-quoted literal
with its embedded indentation). -/
def create_system_prompt : String :=
  "You are an expert on Movies and a helpful AI assistant assisting in movie-related queries. \n        Provide accurate and helpful responses. If you don't know something, say so. \n        Be concise but informative. When citing information from sources, use \n        numbered citations like [1], [2], etc. at the end of sentences containing factual information.\n        The numbered citations will reference the source in the citation list at the end of your response."

/-- `ChatService._format_messages`: the system prompt followed by the
user/assistant turns as (role, content) pairs; other roles are
skipped. -/
def format_messages (conversation : Conversation) : List (String × String) :=
  [("system", create_system_prompt)] ++
    conversation.messages.filterMap fun m =>
      if m.role = "user" then some ("human", m.content)
      else if m.role = "assistant" then some ("ai", m.content)
      else none

/-- The deterministic padding suggestion of
`_generate_related_queries` line 141. -/
def relatedFallback (q : String) : String :=
  "Tell me more about another movie like " ++ q

/-- The per-line parse of `_generate_related_queries` lines 120-135:
strip, drop blank and code-fence lines, strip a `1. ` / `1) `
numbering. -/
def parseRelatedLine (line : String) : Option String :=
  let clean_line := pyStrip line
  if clean_line ≠ "" && !(strStarts clean_line "```") && !(strEnds clean_line "```") then
    match clean_line.data with
    | [] => none
    | c :: rest =>
        if c.isDigit ∧ clean_line.length > 2 ∧
            (rest.take 2 = ['.', ' '] ∨ rest.take 2 = [')', ' ']) then
          some (pyStrip ⟨rest.drop 2⟩)
        else some clean_line
  else none

/-- `ChatService._generate_related_queries`.  The LLM call is not
guarded in the source, and with no assistant message in a two-message
conversation `assistant_responses[-1]` raises; both surface as
`.error`. -/
def generate_related_queries (env : ChatEnv) (conversation : Conversation) :
    Except String (List RelatedQuery) :=
  if conversation.messages.length < 2 then .ok []
  else
    let user_questions :=
      (conversation.messages.filter (·.role = "user")).map (·.content)
    let assistant_responses :=
      (conversation.messages.filter (·.role = "assistant")).map (·.content)
    match assistant_responses.getLast? with
    | none => .error "IndexError: list index out of range"
    | some latest =>
        match env.related_llm user_questions latest with
        | .error e => .error e
        | .ok response_text =>
            let query_texts :=
              (splitPredAux (· = '\n') [] (pyStrip response_text).data).filterMap
                parseRelatedLine
            let query_texts := query_texts.take 3
            if query_texts.length ≥ 3 then .ok (query_texts.map RelatedQuery.mk)
            else
              match user_questions.getLast? with
              | none => .error "IndexError: list index out of range"
              | some q =>
                  let padded := query_texts ++
                    List.replicate (3 - query_texts.length) (relatedFallback q)
                  .ok (padded.map RelatedQuery.mk)

/-- The in-place retitling of Wikipedia citations in
`_combine_data_sources` lines 187-190. -/
def wikipediaSuffix (cs : List Citation) : List Citation :=
  cs.map fun c =>
    if strContains c.title "Wikipedia" then c
    else { c with title := c.title ++ " - Wikipedia" }

/-- `ChatService._combine_data_sources`.  With no data from either
source it returns `("", [], [])` without invoking the LLM. -/
def combine_data_sources (env : ChatEnv) (query : String)
    (tmdb_result wikipedia_result :
      Option (Option String × Option (List Citation) × Option (List ImageData))) :
    Except String (String × List Citation × List ImageData) :=
  let tmdbPart :=
    match tmdb_result with
    | some (some tmdb_response, tmdb_citations, tmdb_images) =>
        if tmdb_response ≠ "" then
          (["TMDb Information:\n" ++ tmdb_response], tmdb_citations.getD [],
           tmdb_images.getD [])
        else ([], [], [])
    | _ => ([], [], [])
  let combined :=
    match wikipedia_result with
    | some (some wiki_data, wiki_citations, wiki_images) =>
        if wiki_data ≠ "" then
          let wc := wiki_citations.getD []
          if wc.length > 0 then
            (tmdbPart.1 ++ [wiki_data], tmdbPart.2.1 ++ wikipediaSuffix wc,
             tmdbPart.2.2 ++ wiki_images.getD [])
          else (tmdbPart.1 ++ [wiki_data], tmdbPart.2.1, tmdbPart.2.2)
        else tmdbPart
    | _ => tmdbPart
  if combined.1 = [] then .ok ("", [], [])
  else
    match env.combine_llm query (String.intercalate "\n\n" combined.1) with
    | .error e => .error e
    | .ok response => .ok (response, combined.2.1, combined.2.2)

/-- The lazy conversation creation of `get_response` lines 290-293.
Note that neither this nor any append touches `updated_at`. -/
def ensure_conversation (st : ChatState) (cid : String) : ChatState :=
  if akey st.conversations cid then st
  else
    let conv : Conversation := ⟨cid, [], moduleLoadTime, moduleLoadTime⟩
    { st with conversations := astore st.conversations cid conv }

/-- `self.conversations[cid].messages.append(m)`: the only mutation
the source ever applies to a stored conversation. -/
def append_message (st : ChatState) (cid : String) (m : Message) : ChatState :=
  match alookup st.conversations cid with
  | none => st
  | some conv =>
      let conv' := { conv with messages := conv.messages ++ [m] }
      { st with conversations := astore st.conversations cid conv' }

/-- Conversation-id resolution at the top of `get_response`
(`if not conversation_id: conversation_id = str(uuid.uuid4())`). -/
def resolve_conversation_id (env : ChatEnv) : Option String → String
  | none => env.new_uuid
  | some c => if c = "" then env.new_uuid else c

/-- Lines 363-378 of `get_response`: append the assistant message,
then generate the related queries from the updated conversation. -/
def get_response_finish (env : ChatEnv) (conversation_id response_text : String)
    (citations : Option (List Citation)) (images : Option (List ImageData))
    (st : ChatState) : Except String TurnResult × ChatState :=
  let assistant_message : Message :=
    { role := "assistant", content := response_text,
      citations := citations, images := images }
  let st := append_message st conversation_id assistant_message
  let conv := (alookup st.conversations conversation_id).getD
    ⟨conversation_id, [], moduleLoadTime, moduleLoadTime⟩
  match generate_related_queries env conv with
  | .error e => (.error e, st)
  | .ok related_queries =>
      (.ok ⟨response_text, conversation_id, citations, images, related_queries⟩, st)

/-- The `try` block of `get_response` after the user message is
recorded: route, fetch the active sources, combine or fall back,
append the assistant message and produce related queries. -/
def get_response_body (env : ChatEnv) (message : String) (conversation_id : String)
    (st : ChatState) : Except String TurnResult × ChatState :=
  let rd := route_query (env.router.parse message)
  let use_tmdb := rd.1 && env.settings.ENABLE_TMDB
  let use_wikipedia := rd.2 && env.settings.ENABLE_WIKIPEDIA
  let tmdbStep :=
    if use_tmdb then
      let r := process_movie_query env.tmdb message (some conversation_id) st.tmdb
      (r.1.map some, { st with tmdb := r.2.1 })
    else (.ok none, st)
  match tmdbStep with
  | (.error e, st1) => (.error e, st1)
  | (.ok tmdb_result, st1) =>
      let wikiStep :=
        if use_wikipedia then
          let r := process_wikipedia_query env.wiki message (some conversation_id) st1.wiki
          (some r.1, { st1 with wiki := r.2.1 })
        else (none, st1)
      let wikipedia_result := wikiStep.1
      let st2 := wikiStep.2
      if tmdb_result.isSome || wikipedia_result.isSome then
        match combine_data_sources env message tmdb_result wikipedia_result with
        | .error e => (.error e, st2)
        | .ok (response_text, citations0, images0) =>
            let citations :=
              if citations0 ≠ [] then filter_unused_citations response_text citations0
              else citations0
            get_response_finish env conversation_id response_text
              (some citations) (some images0) st2
      else
        let conv := (alookup st2.conversations conversation_id).getD
          ⟨conversation_id, [], moduleLoadTime, moduleLoadTime⟩
        match env.fallback_llm (format_messages conv) with
        | .error e => (.error e, st2)
        | .ok response_text =>
            get_response_finish env conversation_id response_text none none st2

/-- `ChatService.get_response`: record the user message, run the turn
body, and on any failure append an error message to the history
before propagating the failure. -/
def get_response (env : ChatEnv) (message : String)
    (conversation_id : Option String) (st : ChatState) :
    Except String TurnResult × ChatState :=
  let rcid := resolve_conversation_id env conversation_id
  let st := ensure_conversation st rcid
  let user_message : Message := { role := "user", content := message }
  let st := append_message st rcid user_message
  match get_response_body env message rcid st with
  | (.ok r, st') => (.ok r, st')
  | (.error e, st') =>
      let error_message : Message :=
        { role := "assistant", content := "Error: " ++ e, error := some true }
      (.error e, append_message st' rcid error_message)

/-- `ChatService.get_conversation_history`. -/
def get_conversation_history (st : ChatState) (conversation_id : String) :
    Option (List Message) :=
  (alookup st.conversations conversation_id).map (·.messages)

/-- The filter as the specification words it ("the sublist of citations
whose 1-indexed positions are exactly the set of integers k with
1 <= k <= N that occur as a bracket marker [k] in the prose, in
ascending order of k, with duplicates removed and out-of-range markers
discarded").  Stated for comparison with `filter_unused_citations`. -/
def filter_citations_asSpec (response_text : String)
    (citations : List Citation) : List Citation :=
  (List.range citations.length).filterMap fun i =>
    if (i + 1) ∈ findMarkers response_text.data then
      some (citations.getD i ⟨"", "", ""⟩)
    else none

/-- Decidable equality on `Except` results, used to evaluate the
model at concrete inputs. -/
instance exceptDecEq {ε α : Type} [DecidableEq ε] [DecidableEq α] :
    DecidableEq (Except ε α) := fun a b =>
  match a, b with
  | .error e, .error e' =>
      if h : e = e' then .isTrue (by rw [h]) else .isFalse (by simp [h])
  | .ok v, .ok v' =>
      if h : v = v' then .isTrue (by rw [h]) else .isFalse (by simp [h])
  | .error _, .ok _ => .isFalse (by simp)
  | .ok _, .error _ => .isFalse (by simp)

/-! ## Claim-level predicates -/

/-- The block at a position carries the entity-prefix number `k`
(either kind). -/
def blockNumbered (k : Nat) (b : String) : Bool :=
  strStarts b ("Movie #" ++ toString k ++ " - ") ||
  strStarts b ("Person #" ++ toString k ++ " - ")

/-- The claim's reading of aggregation numbering: the block at
position `i` (over all kinds, in append order) carries prefix number
`i + 1`. -/
def blocksSequentialFromOne (blocks : List String) : Bool :=
  (List.range blocks.length).all fun i => blockNumbered (i + 1) (blocks.getD i "")

/-- Movie blocks numbered `1..n` in order. -/
def MovieBlocksOk (l : List String) : Prop :=
  ∀ i, i < l.length →
    strStarts (l.getD i "") ("Movie #" ++ toString (i + 1) ++ " - ") = true

/-- Person blocks numbered `1..n` in order. -/
def PersonBlocksOk (l : List String) : Prop :=
  ∀ i, i < l.length →
    strStarts (l.getD i "") ("Person #" ++ toString (i + 1) ++ " - ") = true

/-- Invariant of the CPython set table under insertions of keys below
8: slot `j` holds exactly the inserted keys `j < 8`, in their own
slots. -/
def SetTableOk (t : List (Option Nat)) (K : List Nat) : Prop :=
  8 ≤ t.length ∧ ∀ j, t.getD j none = if j < 8 ∧ j ∈ K then some j else none

/-! ## Concrete fixtures for counterexamples and witnesses -/

/-- Eight distinct citations. -/
def citationsEight : List Citation :=
  [⟨"t1", "u1", "c1"⟩, ⟨"t2", "u2", "c2"⟩, ⟨"t3", "u3", "c3"⟩, ⟨"t4", "u4", "c4"⟩,
   ⟨"t5", "u5", "c5"⟩, ⟨"t6", "u6", "c6"⟩, ⟨"t7", "u7", "c7"⟩, ⟨"t8", "u8", "c8"⟩]

/-- TMDb detail for The Dark Knight. -/
def dkDetail : MovieDetail :=
  { id := 155, title := "The Dark Knight", overview := "Batman raises the stakes.",
    credits_crew := [("Christopher Nolan", "Director")],
    credits_cast := ["Christian Bale"], keywords := ["dc"],
    watch_providers := none, release_date := some "2008-07-16",
    genres := ["Action"], vote_average := some "8.5",
    poster_path := some "/dk.jpg", backdrops := [] }

/-- TMDb search top result for the query `Dark Knight` (note the
canonical title differs from the query spelling). -/
def dkTop : MovieSearchResult :=
  { id := 155, title := some "The Dark Knight",
    overview := some "Batman raises the stakes.",
    release_date := some "2008-07-16", vote_average := some "8.5",
    poster_path := some "/dk.jpg" }

def dkCitation : Citation :=
  ⟨"Batman raises the stakes.", "https://www.themoviedb.org/movie/155",
   "The Dark Knight - TMDb"⟩

/-- A TMDb environment that resolves only `Dark Knight`. -/
def envDK : TMDbEnv :=
  { search_tmdb := fun q => if q = "Dark Knight" then some [dkTop] else none,
    fetch_tmdb_data := fun i => if i = 155 then some dkDetail else none,
    search_person := fun _ => none,
    fetch_person_data := fun _ => none,
    analyzer := fun _ _ _ => .error "unused",
    response_generator := fun _ _ => .ok "unused" }

def recInception : MovieRecord :=
  { data := "dataA", citation := ⟨"tA", "uA", "Inception - TMDb"⟩,
    images := [], title := "Inception" }

def recInterstellar : MovieRecord :=
  { data := "dataB", citation := ⟨"tB", "uB", "Interstellar - TMDb"⟩,
    images := [], title := "Interstellar" }

/-- Conversation `c1` with Inception and Interstellar already
resolved. -/
def stAB : TMDbState :=
  { movie_history :=
      [("c1", [("inception", recInception), ("interstellar", recInterstellar)])],
    conversation_movies := [("c1", ["Inception", "Interstellar"])],
    person_history := [("c1", [])],
    conversation_people := [("c1", [])] }

/-- Conversation `c1` initialized but with nothing resolved. -/
def stFresh : TMDbState :=
  { movie_history := [("c1", [])],
    conversation_movies := [("c1", [])],
    person_history := [("c1", [])],
    conversation_people := [("c1", [])] }

/-- TMDb detail for Inception (aggregation fixture). -/
def inceptionDetail : MovieDetail :=
  { id := 27205, title := "Inception", overview := "A thief who steals secrets.",
    credits_crew := [("Christopher Nolan", "Director")],
    credits_cast := ["Leonardo DiCaprio"], keywords := ["dream"],
    watch_providers := none, release_date := some "2010-07-16",
    genres := ["Action"], vote_average := some "8.4",
    poster_path := none, backdrops := [] }

/-- TMDb detail for Tom Hanks (aggregation fixture). -/
def hanksDetail : PersonDetail :=
  { id := 31, name := "Tom Hanks", biography := some "An American actor.",
    birthday := some "1956-07-09", place_of_birth := some "Concord",
    crew_credits := some [], cast_credits := some [],
    known_for_department := some "Acting", profile_path := none,
    profiles := some [] }

/-- Analyzer outcome asking for one movie and one person. -/
def anaMoviePerson : MovieAnalysis :=
  { needs_movie_data := true, movie_titles := ["Inception"],
    needs_person_data := true, person_names := ["Tom Hanks"] }

/-- A TMDb environment resolving Inception and Tom Hanks, whose
response generator echoes the prompt data (making the aggregation
context observable in the returned response). -/
def envAgg : TMDbEnv :=
  { search_tmdb := fun q =>
      if q = "Inception" then
        some [⟨27205, some "Inception", some "A thief who steals secrets.",
               none, none, none⟩]
      else none,
    fetch_tmdb_data := fun i => if i = 27205 then some inceptionDetail else none,
    search_person := fun q =>
      if q = "Tom Hanks" then some [⟨31, some "Tom Hanks", none, none⟩] else none,
    fetch_person_data := fun i => if i = 31 then some hanksDetail else none,
    analyzer := fun _ _ _ => .ok (some anaMoviePerson),
    response_generator := fun _ data => .ok data }

/-- The empty TMDb service state. -/
def stEmptyT : TMDbState := ⟨[], [], [], []⟩

/-- The empty Wikipedia service state. -/
def stEmptyW : WikiState := ⟨[], []⟩

/-- A Wikipedia environment whose collaborators are never consulted. -/
def wikiUnusedEnv : WikiEnv :=
  ⟨fun _ _ => none, fun _ => none, fun _ => .error "unused",
   fun _ _ => .error "unused"⟩

/-- Chat fixture for the no-enrichment turn: the router selects TMDb
only, the analyzer decides no movie or person data is needed, and
both the combine and the plain-fallback generation collaborators
fail loudly if invoked. -/
def envC5 : ChatEnv :=
  { settings := ⟨true, true⟩,
    router := ⟨fun _ => some ⟨some true, some false⟩⟩,
    tmdb :=
      { search_tmdb := fun _ => none, fetch_tmdb_data := fun _ => none,
        search_person := fun _ => none, fetch_person_data := fun _ => none,
        analyzer := fun _ _ _ => .ok (some {}),
        response_generator := fun _ _ => .error "generator invoked" },
    wiki := wikiUnusedEnv,
    combine_llm := fun _ _ => .error "combine collaborator invoked",
    fallback_llm := fun _ => .error "fallback collaborator invoked",
    related_llm := fun _ _ => .ok "r1\nr2\nr3",
    new_uuid := "uuid-1" }

/-- The empty chat state. -/
def stChat0 : ChatState := ⟨[], stEmptyT, stEmptyW⟩

/-- Chat fixture whose TMDb analyzer raises (an uncaught LLM
transport failure inside the turn body). -/
def envC8 : ChatEnv :=
  { settings := ⟨true, true⟩,
    router := ⟨fun _ => some ⟨some true, some false⟩⟩,
    tmdb :=
      { search_tmdb := fun _ => none, fetch_tmdb_data := fun _ => none,
        search_person := fun _ => none, fetch_person_data := fun _ => none,
        analyzer := fun _ _ _ => .error "boom",
        response_generator := fun _ _ => .error "unused" },
    wiki := wikiUnusedEnv,
    combine_llm := fun _ _ => .error "unused",
    fallback_llm := fun _ => .error "unused",
    related_llm := fun _ _ => .error "unused",
    new_uuid := "uuid-1" }

/-- Chat fixture for related-query generation: only the related-query
collaborator is live. -/
def envC7 (txt : String) : ChatEnv :=
  { settings := ⟨true, true⟩,
    router := ⟨fun _ => none⟩,
    tmdb :=
      { search_tmdb := fun _ => none, fetch_tmdb_data := fun _ => none,
        search_person := fun _ => none, fetch_person_data := fun _ => none,
        analyzer := fun _ _ _ => .error "unused",
        response_generator := fun _ _ => .error "unused" },
    wiki := wikiUnusedEnv,
    combine_llm := fun _ _ => .error "unused",
    fallback_llm := fun _ => .error "unused",
    related_llm := fun _ _ => .ok txt,
    new_uuid := "uuid-1" }

/-- A two-message conversation holding two user questions and no
assistant reply. -/
def convTwoUsers : Conversation :=
  ⟨"c", [{ role := "user", content := "q1" }, { role := "user", content := "q2" }],
   moduleLoadTime, moduleLoadTime⟩

/-- A Wikipedia search result and article fixture. -/
def wikiArticleFix : WikiArticle :=
  { title := some "Inception", extract := some "Inception is a 2010 film.",
    fullurl := some "https://en.wikipedia.org/wiki/Inception",
    thumbnail_source := none, missing := false }

/-- A Wikipedia environment serving one search term and one article. -/
def envW : WikiEnv :=
  { search := fun q _ =>
      if q = "inception film" then some [⟨some "Inception", none⟩] else none,
    fetch := fun t => if t = "Inception" then some (some wikiArticleFix) else none,
    term_gen := fun _ => .error "unused",
    summarizer := fun _ _ => .error "unused" }

/-! ## Shared lemmas on association lists and the conversation store -/

theorem alookup_astore_self {α : Type} (m : List (String × α)) (k : String) (v : α) :
    alookup (astore m k v) k = some v := by
  induction m with
  | nil => simp [astore, alookup]
  | cons kv rest ih =>
      obtain ⟨k', v'⟩ := kv
      by_cases h : k' = k
      · simp [astore, alookup, h]
      · simp [astore, alookup, h, ih]

theorem alookup_astore_ne {α : Type} (m : List (String × α)) (k k' : String) (v : α)
    (h : k ≠ k') : alookup (astore m k v) k' = alookup m k' := by
  induction m with
  | nil => simp [astore, alookup, h]
  | cons kv rest ih =>
      obtain ⟨k1, v1⟩ := kv
      by_cases h1 : k1 = k
      · subst h1; simp [astore, alookup, h]
      · simp [astore, alookup, h1, ih]

theorem akey_astore {α : Type} (m : List (String × α)) (k k' : String) (v : α) :
    akey (astore m k v) k' = (decide (k' = k) || akey m k') := by
  by_cases h : k' = k
  · subst h; simp [akey, alookup_astore_self]
  · simp [akey, alookup_astore_ne m k k' v (Ne.symm h), h]

theorem akey_append_message (st : ChatState) (c' c : String) (m : Message) :
    akey (append_message st c' m).conversations c = akey st.conversations c := by
  unfold append_message
  cases h : alookup st.conversations c' with
  | none => rfl
  | some conv =>
      by_cases hc : c = c'
      · subst hc
        simp only [akey, alookup_astore_self, h, Option.isSome]
      · have h' : c' ≠ c := fun hx => hc hx.symm
        simp only [akey, alookup_astore_ne _ _ _ _ h']

theorem akey_ensure_conversation (st : ChatState) (c : String) :
    akey (ensure_conversation st c).conversations c = true := by
  unfold ensure_conversation
  by_cases h : akey st.conversations c = true
  · simp [h]
  · simp [h, akey_astore]

theorem alookup_append_message (st : ChatState) (cid : String) (m : Message)
    (conv : Conversation) (h : alookup st.conversations cid = some conv) :
    alookup (append_message st cid m).conversations cid =
      some ⟨conv.id, conv.messages ++ [m], conv.created_at, conv.updated_at⟩ := by
  unfold append_message
  rw [h]
  simp [alookup_astore_self]

/-! ## C6 -/

/-- C6: when parsing the router's structured classification output
fails, `route_query` returns needed=true for every source kind (both
`use_tmdb` and `use_wikipedia`), never propagating the parse error. -/
theorem router_fail_open (env : RouterEnv) (query : String)
    (h : env.parse query = none) : route_query_of env query = (true, true) := by
  simp [route_query_of, h, route_query]

theorem router_fail_open_witness :
    (RouterEnv.mk fun _ => none).parse "q" = none ∧
    route_query_of (RouterEnv.mk fun _ => none) "q" = (true, true) :=
  ⟨rfl, router_fail_open (RouterEnv.mk fun _ => none) "q" rfl⟩

/-! ## C9 -/

/-- C9, divergence theorem: the conversation record is created lazily
and each append extends the message list, but `updated_at` stays at
the construction-time default through every later append — the source
never writes `updated_at`, contradicting the claim that each append
updates the timestamp. -/
theorem conversation_append_keeps_updated_at :
    (let st1 := append_message (ensure_conversation stChat0 "c") "c"
        { role := "user", content := "hello" }
     let st2 := append_message st1 "c" { role := "assistant", content := "hi" }
     alookup st1.conversations "c" =
        some ⟨"c", [{ role := "user", content := "hello" }], moduleLoadTime,
              moduleLoadTime⟩ ∧
     alookup st2.conversations "c" =
        some ⟨"c", [{ role := "user", content := "hello" },
                    { role := "assistant", content := "hi" }], moduleLoadTime,
              moduleLoadTime⟩) := by
  exact ⟨by decide, by decide⟩

/-! ## C5 -/

/-- C5, divergence theorem: on a turn where the TMDb resolver is
active but produces no tuples, `get_response` does not take the
fallback path.  In `envC5` both the combine and fallback generation
collaborators fail loudly if invoked, yet the turn succeeds with an
empty response text and present-but-empty citation and image lists
(`some []`, not `none`). -/
theorem no_enrichment_empty_enriched_response :
    (get_response envC5 "hello" (some "c1") stChat0).1 =
      .ok ⟨"", "c1", some [], some [], [⟨"r1"⟩, ⟨"r2"⟩, ⟨"r3"⟩]⟩ := by
  decide

/-! ## C2 -/

/-- C2, divergence theorem: with Inception and Interstellar cached and
the explicit new identifier `Dark Knight` (whose canonical title `The
Dark Knight` differs from the query spelling), a
`references_previous=true` call returns the Dark Knight tuple twice:
once from the explicit lookup and once from the previous-entity
replay pass, whose processed-key check compares canonical titles
against query-normalized keys. -/
theorem implicit_reference_duplicate_resolution :
    (process_movie_data envDK ["Dark Knight"] true (some "c1") stAB).1.2.1 =
      [recInception.citation, recInterstellar.citation, dkCitation, dkCitation] ∧
    ((process_movie_data envDK ["Dark Knight"] true (some "c1") stAB).1.2.1).count
        dkCitation = 2 := by
  exact ⟨by decide, by decide⟩

/-! ## C10 -/

/-- C10: Wikipedia search and article-fetch results are memoized
process-wide, keyed only by the search term or page title (the
functions take no conversation id at all): after a first successful
call populates the cache, a second call with the same term or title
returns exactly the cached result and issues no external request. -/
theorem wikipedia_memoization (env : WikiEnv) (st : WikiState) (q t : String)
    (limit : Nat) (rs : List WikiSearchResult) (a : WikiArticle)
    (hs : env.search q limit = some rs)
    (hmq : alookup st.cache ("search:" ++ q) = none)
    (hf : env.fetch t = some (some a))
    (hmt : alookup st.cache ("article:" ++ t) = none) :
    (search_wikipedia env st q limit).1 = rs ∧
    (search_wikipedia env st q limit).2.2 = [WikiCall.searchReq q limit] ∧
    search_wikipedia env (search_wikipedia env st q limit).2.1 q limit =
      (rs, (search_wikipedia env st q limit).2.1, []) ∧
    (fetch_article_content env st t).1 = some a ∧
    (fetch_article_content env st t).2.2 = [WikiCall.fetchReq t] ∧
    fetch_article_content env (fetch_article_content env st t).2.1 t =
      (some a, (fetch_article_content env st t).2.1, []) := by
  simp [search_wikipedia, fetch_article_content, hmq, hs, hmt, hf,
    alookup_astore_self]

theorem wikipedia_memoization_witness :
    envW.search "inception film" 3 = some [⟨some "Inception", none⟩] ∧
    alookup stEmptyW.cache ("search:" ++ "inception film") = none ∧
    envW.fetch "Inception" = some (some wikiArticleFix) ∧
    alookup stEmptyW.cache ("article:" ++ "Inception") = none ∧
    ((search_wikipedia envW stEmptyW "inception film" 3).1 =
        [⟨some "Inception", none⟩] ∧
     (search_wikipedia envW stEmptyW "inception film" 3).2.2 =
        [WikiCall.searchReq "inception film" 3] ∧
     search_wikipedia envW (search_wikipedia envW stEmptyW "inception film" 3).2.1
        "inception film" 3 =
       ([⟨some "Inception", none⟩],
        (search_wikipedia envW stEmptyW "inception film" 3).2.1, []) ∧
     (fetch_article_content envW stEmptyW "Inception").1 = some wikiArticleFix ∧
     (fetch_article_content envW stEmptyW "Inception").2.2 =
        [WikiCall.fetchReq "Inception"] ∧
     fetch_article_content envW
        (fetch_article_content envW stEmptyW "Inception").2.1 "Inception" =
       (some wikiArticleFix,
        (fetch_article_content envW stEmptyW "Inception").2.1, [])) :=
  ⟨by decide, by decide, by decide, by decide,
   wikipedia_memoization envW stEmptyW "inception film" "Inception" 3
     [⟨some "Inception", none⟩] wikiArticleFix (by decide) (by decide)
     (by decide) (by decide)⟩

/-! ## C8 -/

theorem conversations_key_get_response_finish (env : ChatEnv)
    (cid rt : String) (cits : Option (List Citation))
    (imgs : Option (List ImageData)) (st : ChatState) (c : String) :
    akey ((get_response_finish env cid rt cits imgs st).2).conversations c =
      akey st.conversations c := by
  unfold get_response_finish
  dsimp only
  split
  · simp [akey_append_message]
  · simp [akey_append_message]

theorem conversations_key_get_response_body (env : ChatEnv) (m cid : String)
    (st : ChatState) (c : String) :
    akey ((get_response_body env m cid st).2).conversations c =
      akey st.conversations c := by
  unfold get_response_body
  dsimp only
  split
  case h_1 e st1 heq =>
    have h2 := congrArg (fun p => (p.2).conversations) heq
    dsimp only at h2
    split at h2 <;> (dsimp only; rw [← h2])
  case h_2 tmdb_result st1 heq =>
    have hst1 : st1.conversations = st.conversations := by
      have h2 := congrArg (fun p => (p.2).conversations) heq
      dsimp only at h2
      split at h2 <;> exact h2.symm
    have hx : akey st1.conversations c = akey st.conversations c := by rw [hst1]
    split <;> split <;> split <;>
      first
      | (rw [conversations_key_get_response_finish]; exact hx)
      | exact hx

/-- C8: whenever a turn fails after the user message was recorded, an
assistant message with `error=true` whose content describes the
failure is appended to that conversation's history before the failure
is propagated. -/
theorem error_recorded_in_history (env : ChatEnv) (message : String)
    (conversation_id : Option String) (st : ChatState) (e : String)
    (h : (get_response env message conversation_id st).1 = .error e) :
    ∃ prior : List Message,
      get_conversation_history (get_response env message conversation_id st).2
          (resolve_conversation_id env conversation_id) =
        some (prior ++
          [⟨"assistant", "Error: " ++ e, moduleLoadTime, some true, none, none⟩]) := by
  unfold get_response at h ⊢
  rcases hb : get_response_body env message (resolve_conversation_id env conversation_id)
      (append_message (ensure_conversation st (resolve_conversation_id env conversation_id))
        (resolve_conversation_id env conversation_id)
        { role := "user", content := message }) with ⟨res, stb⟩
  cases res with
  | ok r => simp [hb] at h
  | error e' =>
      simp only [hb] at h ⊢
      cases h
      have hkey : akey stb.conversations (resolve_conversation_id env conversation_id) =
          true := by
        have h1 := conversations_key_get_response_body env message
          (resolve_conversation_id env conversation_id)
          (append_message (ensure_conversation st (resolve_conversation_id env conversation_id))
            (resolve_conversation_id env conversation_id)
            { role := "user", content := message })
          (resolve_conversation_id env conversation_id)
        rw [hb] at h1
        rw [h1, akey_append_message, akey_ensure_conversation]
      rcases hk : alookup stb.conversations (resolve_conversation_id env conversation_id)
        with _ | conv
      · rw [akey, hk] at hkey; simp at hkey
      · refine ⟨conv.messages, ?_⟩
        unfold get_conversation_history
        rw [alookup_append_message _ _ _ _ hk]
        rfl

theorem error_recorded_in_history_witness :
    (get_response envC8 "hi" (some "c1") stChat0).1 = .error "boom" ∧
    (∃ prior : List Message,
      get_conversation_history (get_response envC8 "hi" (some "c1") stChat0).2
          (resolve_conversation_id envC8 (some "c1")) =
        some (prior ++
          [⟨"assistant", "Error: " ++ "boom", moduleLoadTime, some true, none,
            none⟩])) :=
  ⟨by decide, error_recorded_in_history envC8 "hi" (some "c1") stChat0 "boom"
    (by decide)⟩

/-! ## C7 -/

/-- C7 counterexample: a conversation with two user messages (and no
assistant reply) has at least 2 messages and at least one user
message, yet `_generate_related_queries` raises (indexing
`assistant_responses[-1]` on an empty list) instead of returning
exactly 3 suggestions. -/
theorem related_queries_counterexample :
    convTwoUsers.messages.length = 2 ∧
    (convTwoUsers.messages.filter (·.role = "user")) ≠ [] ∧
    generate_related_queries (envC7 "a\nb\nc") convTwoUsers =
      .error "IndexError: list index out of range" := by
  exact ⟨by decide, by decide, by decide⟩

/-- C7 as amended: for every conversation with at least 2 messages,
at least one user message and at least one assistant message, the
generator returns exactly 3 suggestions whatever text the generation
collaborator returns (0, 1, 3, 5 or malformed lines); and for every
conversation with fewer than 2 messages it returns no suggestions. -/
theorem related_queries_always_three (env : ChatEnv) (conv : Conversation)
    (h2 : 2 ≤ conv.messages.length)
    (hu : (conv.messages.filter (·.role = "user")) ≠ [])
    (ha : (conv.messages.filter (·.role = "assistant")) ≠ [])
    (hllm : ∀ uq latest, ∃ t, env.related_llm uq latest = .ok t) :
    (∃ l, generate_related_queries env conv = .ok l ∧ l.length = 3) ∧
    (∀ (env' : ChatEnv) (conv' : Conversation), conv'.messages.length < 2 →
      generate_related_queries env' conv' = .ok []) := by
  constructor
  · unfold generate_related_queries
    rw [if_neg (by omega)]
    dsimp only
    have hA : ((conv.messages.filter (·.role = "assistant")).map (·.content)).getLast? ≠
        none := by
      intro hn
      rw [List.getLast?_eq_none_iff] at hn
      exact ha (by simpa using hn)
    rcases hlast : ((conv.messages.filter (·.role = "assistant")).map (·.content)).getLast?
      with _ | latest
    · exact absurd hlast hA
    rw [hlast]
    dsimp only
    rcases hllm ((conv.messages.filter (·.role = "user")).map (·.content)) latest
      with ⟨t, ht⟩
    rw [ht]
    dsimp only
    have hU : ((conv.messages.filter (·.role = "user")).map (·.content)).getLast? ≠
        none := by
      intro hn
      rw [List.getLast?_eq_none_iff] at hn
      exact hu (by simpa using hn)
    rcases hq : ((conv.messages.filter (·.role = "user")).map (·.content)).getLast?
      with _ | q
    · exact absurd hq hU
    rw [hq]
    dsimp only
    split
    · next h3 =>
        refine ⟨_, rfl, ?_⟩
        simp only [List.length_take] at h3
        simp only [List.length_map, List.length_take]
        omega
    · next h3 =>
        refine ⟨_, rfl, ?_⟩
        simp only [List.length_take] at h3
        simp only [List.length_map, List.length_append, List.length_replicate,
          List.length_take]
        omega
  · intro env' conv' hlt
    unfold generate_related_queries
    rw [if_pos hlt]

theorem related_queries_always_three_witness :
    (2 ≤ ([{ role := "user", content := "q" },
           { role := "assistant", content := "a" }] : List Message).length) ∧
    (∃ l, generate_related_queries (envC7 "x")
        ⟨"c", [{ role := "user", content := "q" },
               { role := "assistant", content := "a" }], moduleLoadTime,
         moduleLoadTime⟩ = .ok l ∧ l.length = 3) ∧
    generate_related_queries (envC7 "x") ⟨"c", [], moduleLoadTime, moduleLoadTime⟩ =
      .ok [] := by
  refine ⟨by decide, ?_, ?_⟩
  · exact (related_queries_always_three (envC7 "x")
      ⟨"c", [{ role := "user", content := "q" },
             { role := "assistant", content := "a" }], moduleLoadTime, moduleLoadTime⟩
      (by decide) (by decide) (by decide) (fun uq latest => ⟨"x", rfl⟩)).1
  · exact (related_queries_always_three (envC7 "x")
      ⟨"c", [{ role := "user", content := "q" },
             { role := "assistant", content := "a" }], moduleLoadTime, moduleLoadTime⟩
      (by decide) (by decide) (by decide) (fun uq latest => ⟨"x", rfl⟩)).2
      (envC7 "x") ⟨"c", [], moduleLoadTime, moduleLoadTime⟩ (by decide)

/-! ## C4 -/

theorem data_append (s t : String) : (s ++ t).data = s.data ++ t.data := rfl

theorem listHasLead_append (p rest : List Char) :
    listHasLead p (p ++ rest) = true := by
  induction p with
  | nil => rfl
  | cons c cs ih => simp [listHasLead, ih]

theorem strStarts_append3 (pre a b c : String) :
    strStarts (pre ++ a ++ b ++ c) pre = true := by
  unfold strStarts
  have hd : (pre ++ a ++ b ++ c).data =
      pre.data ++ (a.data ++ (b.data ++ c.data)) := by
    simp [data_append]
  rw [hd]
  exact listHasLead_append _ _

/-- Appending a block whose prefix number is `length + 1` preserves
the movie-numbering invariant. -/
theorem movieBlocksOk_snoc (l : List String) (a b : String) (h : MovieBlocksOk l) :
    MovieBlocksOk
      (l ++ ["Movie #" ++ toString (l.length + 1) ++ " - " ++ a ++ ":\n" ++ b]) := by
  intro i hi
  simp only [List.length_append, List.length_cons, List.length_nil] at hi
  by_cases hc : i < l.length
  · rw [List.getD_append _ _ _ _ hc]
    exact h i hc
  · have hi' : i = l.length := by omega
    subst hi'
    rw [List.getD_append_right _ _ _ _ (Nat.le_refl _)]
    simpa using strStarts_append3 ("Movie #" ++ toString (l.length + 1) ++ " - ") a ":\n" b

theorem personBlocksOk_snoc (l : List String) (a b : String) (h : PersonBlocksOk l) :
    PersonBlocksOk
      (l ++ ["Person #" ++ toString (l.length + 1) ++ " - " ++ a ++ ":\n" ++ b]) := by
  intro i hi
  simp only [List.length_append, List.length_cons, List.length_nil] at hi
  by_cases hc : i < l.length
  · rw [List.getD_append _ _ _ _ hc]
    exact h i hc
  · have hi' : i = l.length := by omega
    subst hi'
    rw [List.getD_append_right _ _ _ _ (Nat.le_refl _)]
    simpa using strStarts_append3 ("Person #" ++ toString (l.length + 1) ++ " - ") a ":\n" b

theorem movieBlocksOk_histStep (cid : String) (acc : MovieAcc) (kv : String × String)
    (h : MovieBlocksOk acc.data) : MovieBlocksOk (movieHistStep cid acc kv).data := by
  unfold movieHistStep
  dsimp only
  split
  · exact h
  · split
    · exact h
    · exact movieBlocksOk_snoc acc.data _ _ h

theorem movieFinishNew_data (conversation_id : Option String) (cid : String)
    (acc : MovieAcc) (nt a info : String) (c : Citation) (imgs : List ImageData) :
    (movieFinishNew conversation_id cid acc nt a info c imgs).data =
      acc.data ++ ["Movie #" ++ toString (acc.data.length + 1) ++ " - " ++ a ++
        ":\n" ++ info] := by
  unfold movieFinishNew
  dsimp only
  split <;> rfl

theorem movieBlocksOk_newStep (env : TMDbEnv) (conversation_id : Option String)
    (cid : String) (acc : MovieAcc) (title : String)
    (h : MovieBlocksOk acc.data) :
    MovieBlocksOk (movieNewStep env conversation_id cid acc title).data := by
  unfold movieNewStep
  dsimp only
  split
  · exact h
  · split
    · exact h
    · exact h
    · split
      · rw [movieFinishNew_data]
        exact movieBlocksOk_snoc acc.data _ _ h
      · rw [movieFinishNew_data]
        exact movieBlocksOk_snoc acc.data _ _ h

theorem movieBlocksOk_replayStep (cid : String) (acc : MovieAcc) (prev : String)
    (h : MovieBlocksOk acc.data) : MovieBlocksOk (movieReplayStep cid acc prev).data := by
  unfold movieReplayStep
  dsimp only
  split
  · exact h
  · split
    · exact h
    · exact movieBlocksOk_snoc acc.data _ _ h

theorem movieBlocksOk_foldl_hist (cid : String) (ts : List (String × String))
    (acc : MovieAcc) (h : MovieBlocksOk acc.data) :
    MovieBlocksOk ((ts.foldl (movieHistStep cid) acc).data) := by
  induction ts generalizing acc with
  | nil => exact h
  | cons kv rest ih => exact ih _ (movieBlocksOk_histStep cid acc kv h)

theorem movieBlocksOk_foldl_new (env : TMDbEnv) (conversation_id : Option String)
    (cid : String) (ts : List String) (acc : MovieAcc) (h : MovieBlocksOk acc.data) :
    MovieBlocksOk ((ts.foldl (movieNewStep env conversation_id cid) acc).data) := by
  induction ts generalizing acc with
  | nil => exact h
  | cons t rest ih => exact ih _ (movieBlocksOk_newStep env conversation_id cid acc t h)

theorem movieBlocksOk_foldl_replay (cid : String) (ts : List String)
    (acc : MovieAcc) (h : MovieBlocksOk acc.data) :
    MovieBlocksOk ((ts.foldl (movieReplayStep cid) acc).data) := by
  induction ts generalizing acc with
  | nil => exact h
  | cons t rest ih => exact ih _ (movieBlocksOk_replayStep cid acc t h)

theorem personBlocksOk_histStep (cid : String) (acc : PersonAcc) (kv : String × String)
    (h : PersonBlocksOk acc.data) : PersonBlocksOk (personHistStep cid acc kv).data := by
  unfold personHistStep
  dsimp only
  split
  · exact h
  · split
    · exact h
    · exact personBlocksOk_snoc acc.data _ _ h

theorem personFinishNew_data (conversation_id : Option String) (cid : String)
    (acc : PersonAcc) (nn a info : String) (c : Citation) (imgs : List ImageData) :
    (personFinishNew conversation_id cid acc nn a info c imgs).data =
      acc.data ++ ["Person #" ++ toString (acc.data.length + 1) ++ " - " ++ a ++
        ":\n" ++ info] := by
  unfold personFinishNew
  dsimp only
  split <;> rfl

theorem personBlocksOk_newStep (env : TMDbEnv) (conversation_id : Option String)
    (cid : String) (acc : PersonAcc) (name : String)
    (h : PersonBlocksOk acc.data) :
    PersonBlocksOk (personNewStep env conversation_id cid acc name).data := by
  unfold personNewStep
  dsimp only
  split
  · exact h
  · split
    · exact h
    · exact h
    · split
      · rw [personFinishNew_data]
        exact personBlocksOk_snoc acc.data _ _ h
      · rw [personFinishNew_data]
        exact personBlocksOk_snoc acc.data _ _ h

theorem personBlocksOk_replayStep (cid : String) (acc : PersonAcc) (prev : String)
    (h : PersonBlocksOk acc.data) : PersonBlocksOk (personReplayStep cid acc prev).data := by
  unfold personReplayStep
  dsimp only
  split
  · exact h
  · split
    · exact h
    · exact personBlocksOk_snoc acc.data _ _ h

theorem personBlocksOk_foldl_hist (cid : String) (ts : List (String × String))
    (acc : PersonAcc) (h : PersonBlocksOk acc.data) :
    PersonBlocksOk ((ts.foldl (personHistStep cid) acc).data) := by
  induction ts generalizing acc with
  | nil => exact h
  | cons kv rest ih => exact ih _ (personBlocksOk_histStep cid acc kv h)

theorem personBlocksOk_foldl_new (env : TMDbEnv) (conversation_id : Option String)
    (cid : String) (ts : List String) (acc : PersonAcc) (h : PersonBlocksOk acc.data) :
    PersonBlocksOk ((ts.foldl (personNewStep env conversation_id cid) acc).data) := by
  induction ts generalizing acc with
  | nil => exact h
  | cons t rest ih => exact ih _ (personBlocksOk_newStep env conversation_id cid acc t h)

theorem personBlocksOk_foldl_replay (cid : String) (ts : List String)
    (acc : PersonAcc) (h : PersonBlocksOk acc.data) :
    PersonBlocksOk ((ts.foldl (personReplayStep cid) acc).data) := by
  induction ts generalizing acc with
  | nil => exact h
  | cons t rest ih => exact ih _ (personBlocksOk_replayStep cid acc t h)

theorem movieBlocksOk_nil : MovieBlocksOk [] := by
  intro i hi
  simp at hi

theorem personBlocksOk_nil : PersonBlocksOk [] := by
  intro i hi
  simp at hi

/-- The movie blocks of one `_process_movie_data` call are numbered
`Movie #1 .. Movie #n` in append order, for every environment, input
and state. -/
theorem process_movie_data_blocks (env : TMDbEnv) (titles : List String)
    (refs : Bool) (cid : Option String) (st : TMDbState) :
    MovieBlocksOk (process_movie_data env titles refs cid st).1.1 := by
  unfold process_movie_data
  dsimp only
  repeat' split
  all_goals
    first
    | exact movieBlocksOk_nil
    | exact movieBlocksOk_foldl_replay _ _ _
        (movieBlocksOk_foldl_new _ _ _ _ _
          (movieBlocksOk_foldl_hist _ _ _ movieBlocksOk_nil))
    | exact movieBlocksOk_foldl_new _ _ _ _ _
        (movieBlocksOk_foldl_hist _ _ _ movieBlocksOk_nil)
    | exact movieBlocksOk_foldl_replay _ _ _
        (movieBlocksOk_foldl_new _ _ _ _ _ movieBlocksOk_nil)
    | exact movieBlocksOk_foldl_new _ _ _ _ _ movieBlocksOk_nil

/-- The person blocks of one `_process_person_data` call are numbered
`Person #1 .. Person #n` in append order. -/
theorem process_person_data_blocks (env : TMDbEnv) (names : List String)
    (refs : Bool) (cid : Option String) (st : TMDbState) :
    PersonBlocksOk (process_person_data env names refs cid st).1.1 := by
  unfold process_person_data
  dsimp only
  repeat' split
  all_goals
    first
    | exact personBlocksOk_nil
    | exact personBlocksOk_foldl_replay _ _ _
        (personBlocksOk_foldl_new _ _ _ _ _
          (personBlocksOk_foldl_hist _ _ _ personBlocksOk_nil))
    | exact personBlocksOk_foldl_new _ _ _ _ _
        (personBlocksOk_foldl_hist _ _ _ personBlocksOk_nil)
    | exact personBlocksOk_foldl_replay _ _ _
        (personBlocksOk_foldl_new _ _ _ _ _ personBlocksOk_nil)
    | exact personBlocksOk_foldl_new _ _ _ _ _ personBlocksOk_nil

theorem listHasSub_of_lead (sub l : List Char) (h : listHasLead sub l = true) :
    listHasSub sub l = true := by
  cases l with
  | nil => simpa [listHasSub]
  | cons c cs => simp [listHasSub, h]

theorem listHasSub_cons (sub l : List Char) (c : Char)
    (h : listHasSub sub l = true) : listHasSub sub (c :: l) = true := by
  simp [listHasSub, h]

theorem listHasSub_append_left (sub pre l : List Char)
    (h : listHasSub sub l = true) : listHasSub sub (pre ++ l) = true := by
  induction pre with
  | nil => simpa
  | cons c cs ih => simpa using listHasSub_cons sub (cs ++ l) c ih

/-- The legend line for the `k`-th citation (0-based) inside
`citation_guide_from i` carries the number `i + k + 1`. -/
theorem citation_guide_from_contains (cs : List Citation) (i k : Nat)
    (hk : k < cs.length) :
    listHasSub ("\n[" ++ toString (i + k + 1) ++ "] " ++
        (cs.getD k ⟨"", "", ""⟩).title).data
      (citation_guide_from i cs).data = true := by
  induction cs generalizing i k with
  | nil => simp at hk
  | cons c rest ih =>
      cases k with
      | zero =>
          apply listHasSub_of_lead
          have hd : (citation_guide_from i (c :: rest)).data =
              ("\n[" ++ toString (i + 0 + 1) ++ "] " ++ c.title).data ++
                (citation_guide_from (i + 1) rest).data := by
            simp [citation_guide_from, data_append]
          rw [hd]
          exact listHasLead_append _ _
      | succ k' =>
          have hd : (citation_guide_from i (c :: rest)).data =
              ("\n[" ++ toString (i + 1) ++ "] " ++ c.title).data ++
                (citation_guide_from (i + 1) rest).data := by
            simp [citation_guide_from, data_append]
          rw [hd]
          apply listHasSub_append_left
          have hk' : k' < rest.length := by simpa using hk
          have := ih (i + 1) k' hk'
          have harith : i + 1 + k' + 1 = i + (k' + 1) + 1 := by omega
          rw [harith] at this
          simpa using this

/-- C4 counterexample: aggregating one movie and one person, the
person block is prefixed `Person #1` (its kind-local counter) while
the legend numbers the same entity `[2]`, so the claim that the
numbers in the block prefixes are strictly sequential with no gaps
across all kinds is false; the final conjunct checks that this is
exactly the context `process_movie_query` aggregates (its response
generator echoes the prompt data). -/
theorem aggregation_numbering_counterexample :
    (let movieStep := process_movie_data envAgg ["Inception"] false (some "c1") stFresh
     let personStep :=
       process_person_data envAgg ["Tom Hanks"] false (some "c1") movieStep.2.1
     let all_data := movieStep.1.1 ++ personStep.1.1
     let all_citations := movieStep.1.2.1 ++ personStep.1.2.1
     blocksSequentialFromOne all_data = false ∧
     all_data.length = 2 ∧
     strStarts (all_data.getD 1 "") "Person #1 - " = true ∧
     citation_guide all_citations =
       "\n\nCitation References:\n[1] Inception - TMDb\n[2] Tom Hanks - TMDb" ∧
     (process_movie_query envAgg "q" (some "c1") stEmptyT).1 =
       .ok (some (String.intercalate "\n\n" all_data ++ citation_guide all_citations),
            some all_citations, some (movieStep.1.2.2 ++ personStep.1.2.2))) := by
  exact ⟨by decide, by decide, by decide, by decide, by decide⟩

/-- C4 as amended: the legend built during aggregation assigns the
strictly sequential, response-scoped numbers `1..N` to the citations
in append order across all kinds (the line `[k+1] title` appears for
the `k`-th citation), while the `Movie #k` / `Person #k` prefixes
attached to the formatted blocks are sequential from 1 within each
kind separately. -/
theorem aggregation_numbering_amended :
    (∀ (env : TMDbEnv) (titles : List String) (refs : Bool) (cid : Option String)
        (st : TMDbState),
      MovieBlocksOk (process_movie_data env titles refs cid st).1.1) ∧
    (∀ (env : TMDbEnv) (names : List String) (refs : Bool) (cid : Option String)
        (st : TMDbState),
      PersonBlocksOk (process_person_data env names refs cid st).1.1) ∧
    (∀ (cs : List Citation) (k : Nat), k < cs.length →
      strContains (citation_guide cs)
        ("\n[" ++ toString (k + 1) ++ "] " ++ (cs.getD k ⟨"", "", ""⟩).title) = true) := by
  refine ⟨process_movie_data_blocks, process_person_data_blocks, ?_⟩
  intro cs k hk
  unfold citation_guide strContains
  rw [data_append]
  apply listHasSub_append_left
  simpa using citation_guide_from_contains cs 0 k hk

theorem aggregation_numbering_amended_witness :
    (MovieBlocksOk (process_movie_data envAgg ["Inception"] false (some "c1")
        stFresh).1.1 ∧
     PersonBlocksOk (process_person_data envAgg ["Tom Hanks"] false (some "c1")
        stFresh).1.1) ∧
    (1 < ([dkCitation, ⟨"b", "u", "Tom Hanks - TMDb"⟩] : List Citation).length ∧
     strContains (citation_guide [dkCitation, ⟨"b", "u", "Tom Hanks - TMDb"⟩])
       ("\n[" ++ toString (1 + 1) ++ "] " ++
         (([dkCitation, ⟨"b", "u", "Tom Hanks - TMDb"⟩] :
            List Citation).getD 1 ⟨"", "", ""⟩).title) = true) :=
  ⟨⟨aggregation_numbering_amended.1 envAgg ["Inception"] false (some "c1") stFresh,
    aggregation_numbering_amended.2.1 envAgg ["Tom Hanks"] false (some "c1") stFresh⟩,
   by decide,
   aggregation_numbering_amended.2.2 [dkCitation, ⟨"b", "u", "Tom Hanks - TMDb"⟩] 1
     (by decide)⟩

/-! ## C3 -/

theorem astore_nil {α : Type} (k : String) (v : α) :
    astore ([] : List (String × α)) k v = [(k, v)] := rfl

theorem alookup_nil {α : Type} (k : String) :
    alookup ([] : List (String × α)) k = none := rfl

theorem alookup_cons {α : Type} (k' k : String) (v' : α) (rest : List (String × α)) :
    alookup ((k', v') :: rest) k = if k' = k then some v' else alookup rest k := rfl

/-- C3: resolving the same identifier in two successive calls on the
same conversation issues exactly one search and one detail-fetch
request in total, both during the first call; the second call issues
no request and returns exactly the blocks, citations and images
produced and stored by the first.  Hypotheses: the conversation is
initialized (as `process_movie_query` guarantees), the identifier is
not yet cached, and the external lookups succeed. -/
theorem cache_reuse_idempotent (env : TMDbEnv) (st : TMDbState)
    (cid title : String) (hist0 : List (String × MovieRecord))
    (conv0 : List String) (top : MovieSearchResult) (rest : List MovieSearchResult)
    (md : MovieDetail)
    (hcid : cid ≠ "")
    (hh : alookup st.movie_history cid = some hist0)
    (hmiss : alookup hist0 (pyLower title) = none)
    (hc : alookup st.conversation_movies cid = some conv0)
    (hs : env.search_tmdb title = some (top :: rest))
    (hf : env.fetch_tmdb_data top.id = some md) :
    (process_movie_data env [title] false (some cid) st).2.2 =
      [ApiCall.searchMovie title, ApiCall.fetchMovie top.id] ∧
    (process_movie_data env [title] false (some cid)
        (process_movie_data env [title] false (some cid) st).2.1).2.2 = [] ∧
    (process_movie_data env [title] false (some cid)
        (process_movie_data env [title] false (some cid) st).2.1).1 =
      (process_movie_data env [title] false (some cid) st).1 := by
  by_cases hmem : md.title ∈ conv0 <;>
    refine ⟨?_, ?_, ?_⟩ <;>
      simp [process_movie_data, movieHistStep, movieNewStep, movieFinishNew,
        movieReplayStep, cidTruthy, akey, hcid, hh, hc, hmiss, hs, hf, hmem,
        alookup_astore_self, astore_nil, alookup_nil, alookup_cons]

theorem cache_reuse_idempotent_witness :
    ("c1" : String) ≠ "" ∧
    envDK.search_tmdb "Dark Knight" = some [dkTop] ∧
    envDK.fetch_tmdb_data dkTop.id = some dkDetail ∧
    ((process_movie_data envDK ["Dark Knight"] false (some "c1") stFresh).2.2 =
       [ApiCall.searchMovie "Dark Knight", ApiCall.fetchMovie dkTop.id] ∧
     (process_movie_data envDK ["Dark Knight"] false (some "c1")
         (process_movie_data envDK ["Dark Knight"] false (some "c1") stFresh).2.1).2.2 =
       [] ∧
     (process_movie_data envDK ["Dark Knight"] false (some "c1")
         (process_movie_data envDK ["Dark Knight"] false (some "c1") stFresh).2.1).1 =
       (process_movie_data envDK ["Dark Knight"] false (some "c1") stFresh).1) :=
  ⟨by decide, by decide, by decide,
   cache_reuse_idempotent envDK stFresh "c1" "Dark Knight" [] [] dkTop [] dkDetail
     (by decide) (by decide) (by decide) (by decide) (by decide) (by decide)⟩

/-! ## C1 -/

/-- C1 counterexample: with 8 citations and the markers `[8]` and
`[1]` in the prose, the filter returns the citations in CPython's
set-iteration order `[8, 1]` (8 hashes to slot 0 of the 8-slot
table), not in ascending marker order as the claim states. -/
theorem citation_filter_order_counterexample :
    filter_unused_citations "See [8] and [1]." citationsEight ≠
      filter_citations_asSpec "See [8] and [1]." citationsEight ∧
    filter_unused_citations "See [8] and [1]." citationsEight =
      [⟨"t8", "u8", "c8"⟩, ⟨"t1", "u1", "c1"⟩] ∧
    filter_citations_asSpec "See [8] and [1]." citationsEight =
      [⟨"t1", "u1", "c1"⟩, ⟨"t8", "u8", "c8"⟩] := by
  exact ⟨by decide, by decide, by decide⟩

theorem getD_set_self {α : Type} (l : List α) (i : Nat) (v d : α)
    (h : i < l.length) : (l.set i v).getD i d = v := by
  induction l generalizing i with
  | nil => simp at h
  | cons a as ih =>
      cases i with
      | zero => rfl
      | succ i' => exact ih i' (by simpa using h)

theorem getD_set_ne {α : Type} (l : List α) (i j : Nat) (v d : α)
    (h : i ≠ j) : (l.set i v).getD j d = l.getD j d := by
  induction l generalizing i j with
  | nil => simp
  | cons a as ih =>
      cases i with
      | zero =>
          cases j with
          | zero => exact absurd rfl h
          | succ j' => rfl
      | succ i' =>
          cases j with
          | zero => rfl
          | succ j' => exact ih i' j' (by omega)

theorem getD_replicate_none (n j : Nat) :
    (List.replicate n (none : Option Nat)).getD j none = none := by
  induction n generalizing j with
  | zero => rfl
  | succ n' ih =>
      cases j with
      | zero => rfl
      | succ j' => exact ih j'

theorem innerScan_first (t : List (Option Nat)) (key i : Nat) (r : Bool × Nat)
    (h : slotCheck t key i = some r) : ∀ n, innerScan t key i n = some r := by
  intro n
  cases n with
  | zero => exact h
  | succ n' => simp [innerScan, h]

theorem cleanScan_first (t : List (Option Nat)) (i : Nat)
    (h : t.getD i none = none) : ∀ n, cleanScan t i n = some i := by
  intro n
  cases n with
  | zero =>
      unfold cleanScan
      rw [h]
  | succ n' =>
      unfold cleanScan
      rw [h]

theorem growSize_ge (fuel cur m : Nat) : cur ≤ growSize fuel cur m := by
  induction fuel generalizing cur with
  | zero => simp [growSize]
  | succ f ih =>
      unfold growSize
      split
      · exact le_trans (by omega) (ih (cur * 2))
      · exact Nat.le_refl _

theorem pyHash_small (k : Nat) (h : k < 8) : pyHash k = k := by
  unfold pyHash
  exact Nat.mod_eq_of_lt (by omega)

theorem cleanInsert_at_slot (acc : List (Option Nat)) (k : Nat) (hk : k < 8)
    (hlen : 8 ≤ acc.length) (hempty : acc.getD k none = none) :
    cleanInsert acc k = acc.set k (some k) := by
  unfold cleanInsert
  dsimp only
  rw [pyHash_small k hk, Nat.mod_eq_of_lt (show k < acc.length by omega)]
  rw [show acc.length * 2 + 64 = (acc.length * 2 + 63) + 1 from rfl]
  unfold cleanProbe
  dsimp only
  rw [cleanScan_first acc k hempty]

theorem table_eq_map_range (t : List (Option Nat)) (K : List Nat)
    (h : SetTableOk t K) :
    t = (List.range t.length).map
      (fun j => if j < 8 ∧ j ∈ K then some j else none) := by
  rcases h with ⟨hlen, hc⟩
  apply List.ext_get?
  intro n
  by_cases hn : n < t.length
  · have h1 := hc n
    rw [List.getD_eq_getD_get?] at h1
    rcases hget : t.get? n with _ | x
    · rw [List.get?_eq_none] at hget
      omega
    · rw [hget] at h1
      simp only [Option.getD_some] at h1
      rw [List.get?_eq_get (by simpa using hn)]
      simp [List.get_map, List.get_range, h1, hget]
  · rw [List.get?_eq_none.mpr (by omega), List.get?_eq_none.mpr (by simp; omega)]

/-- One step of the resize re-insertion fold. -/
def resizeStep (acc : List (Option Nat)) (e : Option Nat) : List (Option Nat) :=
  match e with
  | none => acc
  | some k => cleanInsert acc k

theorem resize_fold_inv (K : List Nat) (init : List (Option Nat))
    (h8 : 8 ≤ init.length) (hinit : ∀ j, init.getD j none = none) :
    ∀ n,
      (((List.range n).foldl
          (fun acc x =>
            resizeStep acc (if x < 8 ∧ x ∈ K then some x else none)) init)).length =
        init.length ∧
      ∀ j,
        ((List.range n).foldl
            (fun acc x =>
              resizeStep acc (if x < 8 ∧ x ∈ K then some x else none)) init).getD j
          none = if j < n ∧ j < 8 ∧ j ∈ K then some j else none := by
  intro n
  induction n with
  | zero =>
      refine ⟨rfl, fun j => ?_⟩
      simp only [List.range_zero, List.foldl_nil]
      rw [hinit j]
      simp
  | succ n ih =>
      rcases ih with ⟨ihlen, ihc⟩
      rw [List.range_succ, List.foldl_append, List.foldl_cons, List.foldl_nil]
      set A := (List.range n).foldl
        (fun acc x => resizeStep acc (if x < 8 ∧ x ∈ K then some x else none)) init
        with hA
      by_cases hx : n < 8 ∧ n ∈ K
      · rw [if_pos hx]
        have hempty : A.getD n none = none := by
          rw [ihc n]
          simp
        have hres : resizeStep A (some n) = A.set n (some n) := by
          show cleanInsert A n = A.set n (some n)
          exact cleanInsert_at_slot A n hx.1 (by omega) hempty
        rw [hres]
        refine ⟨by simpa using ihlen, fun j => ?_⟩
        by_cases hj : j = n
        · subst hj
          rw [getD_set_self _ _ _ _ (by omega)]
          rw [if_pos ⟨by omega, hx⟩]
        · rw [getD_set_ne _ _ _ _ _ (fun hh => hj hh.symm), ihc j]
          have hiff : (j < n ∧ j < 8 ∧ j ∈ K) ↔ (j < n + 1 ∧ j < 8 ∧ j ∈ K) := by
            constructor <;> rintro ⟨h1, h2⟩ <;> exact ⟨by omega, h2⟩
          exact if_congr hiff rfl rfl
      · rw [if_neg hx]
        have hid : resizeStep A none = A := rfl
        rw [hid]
        refine ⟨ihlen, fun j => ?_⟩
        rw [ihc j]
        by_cases hj : j = n
        · subst hj
          rw [if_neg (fun hc => absurd hc.1 (Nat.lt_irrefl _)),
            if_neg (fun hc => hx hc.2)]
        · have hiff : (j < n ∧ j < 8 ∧ j ∈ K) ↔ (j < n + 1 ∧ j < 8 ∧ j ∈ K) := by
            constructor <;> rintro ⟨h1, h2⟩ <;> exact ⟨by omega, h2⟩
          exact if_congr hiff rfl rfl

theorem setResize_ok (t : List (Option Nat)) (u : Nat) (K : List Nat) (m : Nat)
    (h : SetTableOk t K) : SetTableOk (setResize ⟨t, u⟩ m).table K := by
  have hgrow : 8 ≤ growSize 64 8 m := growSize_ge 64 8 m
  have hlen := h.1
  unfold setResize
  dsimp only
  have hrepl8 : 8 ≤ (List.replicate (growSize 64 8 m) (none : Option Nat)).length := by
    simpa using hgrow
  have hreplc : ∀ j,
      (List.replicate (growSize 64 8 m) (none : Option Nat)).getD j none = none :=
    fun j => getD_replicate_none _ j
  have hfold := resize_fold_inv K
    (List.replicate (growSize 64 8 m) (none : Option Nat)) hrepl8 hreplc t.length
  have hstep : t.foldl resizeStep
      (List.replicate (growSize 64 8 m) (none : Option Nat)) =
      (List.range t.length).foldl
        (fun acc x => resizeStep acc (if x < 8 ∧ x ∈ K then some x else none))
        (List.replicate (growSize 64 8 m) (none : Option Nat)) := by
    conv_lhs => rw [table_eq_map_range t K h]
    rw [List.foldl_map]
  have hsame : (fun (tb : List (Option Nat)) (e : Option Nat) =>
      match e with
      | none => tb
      | some k => cleanInsert tb k) = resizeStep := rfl
  rw [hsame, hstep]
  constructor
  · rw [hfold.1]
    simpa using hgrow
  · intro j
    rw [hfold.2 j]
    by_cases hj8 : j < 8 ∧ j ∈ K
    · rw [if_pos ⟨Nat.lt_of_lt_of_le hj8.1 hlen, hj8⟩, if_pos hj8]
    · rw [if_neg (fun hc => hj8 hc.2), if_neg hj8]

theorem setTableOk_cons_self (t : List (Option Nat)) (K : List Nat) (k : Nat)
    (hkK : k ∈ K) (h : SetTableOk t K) : SetTableOk t (k :: K) := by
  refine ⟨h.1, fun j => ?_⟩
  rw [h.2 j]
  by_cases hj : j < 8 ∧ j ∈ K
  · rw [if_pos hj, if_pos ⟨hj.1, List.mem_cons_of_mem _ hj.2⟩]
  · rw [if_neg hj, if_neg (fun hc => hj ⟨hc.1, by
      rcases List.mem_cons.mp hc.2 with he | hm
      · rw [he]
        exact hkK
      · exact hm⟩)]

theorem setTableOk_set (t : List (Option Nat)) (K : List Nat) (k : Nat)
    (hk : k < 8) (hkK : k ∉ K) (h : SetTableOk t K) :
    SetTableOk (t.set k (some k)) (k :: K) := by
  refine ⟨by simpa using h.1, fun j => ?_⟩
  by_cases hj : j = k
  · rw [hj]
    rw [getD_set_self _ _ _ _ (by have := h.1; omega)]
    rw [if_pos ⟨hk, List.mem_cons_self _ _⟩]
  · rw [getD_set_ne _ _ _ _ _ (fun hh => hj hh.symm), h.2 j]
    by_cases hj8 : j < 8 ∧ j ∈ K
    · rw [if_pos hj8, if_pos ⟨hj8.1, List.mem_cons_of_mem _ hj8.2⟩]
    · rw [if_neg hj8, if_neg (fun hc => hj8 ⟨hc.1, by
        rcases List.mem_cons.mp hc.2 with he | hm
        · exact absurd he hj
        · exact hm⟩)]

theorem setAdd_ok (s : PyIntSet) (K : List Nat) (k : Nat) (hk : k < 8)
    (h : SetTableOk s.table K) : SetTableOk (setAdd s k).table (k :: K) := by
  have hlen := h.1
  have hsmall : pyHash k % s.table.length = k := by
    rw [pyHash_small k hk]
    exact Nat.mod_eq_of_lt (by omega)
  unfold setAdd
  dsimp only
  rw [show s.table.length * 2 + 64 = (s.table.length * 2 + 63) + 1 from rfl]
  unfold setProbe
  dsimp only
  rw [hsmall]
  by_cases hkK : k ∈ K
  · have hslot : slotCheck s.table k k = some (true, k) := by
      unfold slotCheck
      rw [h.2 k, if_pos ⟨hk, hkK⟩]
      simp
    rw [innerScan_first _ _ _ _ hslot]
    exact setTableOk_cons_self _ _ _ hkK h
  · have hslot : slotCheck s.table k k = some (false, k) := by
      unfold slotCheck
      rw [h.2 k, if_neg (fun hc => hkK hc.2)]
    rw [innerScan_first _ _ _ _ hslot]
    dsimp only
    split
    · exact setTableOk_set _ _ _ hk hkK h
    · exact setResize_ok _ _ _ _ (setTableOk_set _ _ _ hk hkK h)

theorem foldl_setAdd_ok (ms : List Nat) :
    ∀ (s : PyIntSet) (K0 : List Nat), (∀ m ∈ ms, m < 8) → SetTableOk s.table K0 →
      ∃ K, SetTableOk (ms.foldl setAdd s).table K ∧
        ∀ j, (j ∈ K ↔ j ∈ K0 ∨ j ∈ ms) := by
  induction ms with
  | nil =>
      intro s K0 _ h
      exact ⟨K0, h, fun j => by simp⟩
  | cons m ms ih =>
      intro s K0 hms h
      have hm : m < 8 := hms m (List.mem_cons_self _ _)
      have h1 := setAdd_ok s K0 m hm h
      obtain ⟨K, hK, hiff⟩ := ih (setAdd s m) (m :: K0)
        (fun x hx => hms x (List.mem_cons_of_mem _ hx)) h1
      refine ⟨K, hK, fun j => ?_⟩
      rw [hiff j]
      simp only [List.mem_cons]
      tauto

theorem pySetEmpty_ok : SetTableOk pySetEmpty.table [] := by
  refine ⟨by simp [pySetEmpty], fun j => ?_⟩
  show (List.replicate 8 (none : Option Nat)).getD j none = _
  rw [getD_replicate_none]
  simp

theorem pySetOfList_ok (ms : List Nat) (h : ∀ m ∈ ms, m < 8) :
    ∃ K, SetTableOk (pySetOfList ms).table K ∧ ∀ j, (j ∈ K ↔ j ∈ ms) := by
  obtain ⟨K, hK, hiff⟩ := foldl_setAdd_ok ms pySetEmpty [] h pySetEmpty_ok
  refine ⟨K, hK, fun j => ?_⟩
  rw [hiff j]
  simp

theorem filterMap_ext_mem {α β : Type} (l : List α) (f g : α → Option β)
    (h : ∀ x ∈ l, f x = g x) : l.filterMap f = l.filterMap g := by
  induction l with
  | nil => rfl
  | cons a l ih =>
      rw [List.filterMap_cons, List.filterMap_cons,
        h a (List.mem_cons_self _ _),
        ih (fun x hx => h x (List.mem_cons_of_mem _ hx))]

theorem filterMap_range_trim {β : Type} (m : Nat) (f : Nat → Option β) :
    ∀ N, m ≤ N → (∀ j, m ≤ j → f j = none) →
      (List.range N).filterMap f = (List.range m).filterMap f := by
  intro N
  induction N with
  | zero =>
      intro hm _
      rw [Nat.le_zero.mp hm]
  | succ n ih =>
      intro hm hnone
      by_cases hEq : m = n + 1
      · rw [hEq]
      · have hle : m ≤ n := by omega
        rw [List.range_succ, List.filterMap_append, ih hle hnone]
        simp [List.filterMap_cons, hnone n hle]

theorem pySetToList_ok (s : PyIntSet) (K : List Nat) (h : SetTableOk s.table K) :
    pySetToList s =
      (List.range 8).filterMap (fun j => if j ∈ K then some j else none) := by
  unfold pySetToList
  rw [table_eq_map_range s.table K h, List.filterMap_map, Function.id_comp]
  rw [filterMap_range_trim 8 _ s.table.length h.1
    (fun j hj => if_neg (fun hc => absurd hc.1 (by omega)))]
  refine filterMap_ext_mem _ _ _ (fun x hx => ?_)
  rw [List.mem_range] at hx
  by_cases hxK : x ∈ K
  · rw [if_pos ⟨hx, hxK⟩, if_pos hxK]
  · rw [if_neg (fun hc => hxK hc.2), if_neg hxK]

theorem filterMap_range_succ_shift {β : Type} (f : Nat → Option β) (m : Nat)
    (h0 : f 0 = none) :
    (List.range (m + 1)).filterMap f =
      (List.range m).filterMap (fun j => f (j + 1)) := by
  rw [List.range_succ_eq_map, List.filterMap_cons, h0, List.filterMap_map]
  rfl

theorem foldl_citation_append (citations : List Citation) :
    ∀ (l : List Nat) (acc : List Citation),
      l.foldl
        (fun acc idx =>
          if 1 ≤ idx ∧ idx - 1 < citations.length then
            acc ++ [citations.getD (idx - 1) ⟨"", "", ""⟩]
          else acc) acc =
      acc ++ l.filterMap
        (fun idx =>
          if 1 ≤ idx ∧ idx - 1 < citations.length then
            some (citations.getD (idx - 1) ⟨"", "", ""⟩)
          else none) := by
  intro l
  induction l with
  | nil =>
      intro acc
      simp
  | cons a l ih =>
      intro acc
      rw [List.foldl_cons, List.filterMap_cons]
      by_cases hp : 1 ≤ a ∧ a - 1 < citations.length
      · rw [if_pos hp, if_pos hp, ih, List.append_assoc]
        rfl
      · rw [if_neg hp, if_neg hp, ih]

/-- C1 (amended): whenever every `[k]` marker in the prose is below 8
(so CPython's 8-slot hash table stores each marker at slot `k` and
iterates in ascending order), `_filter_unused_citations` returns
exactly the sublist of citations whose 1-indexed positions occur as
in-range markers, in ascending order with duplicates removed; and for
the empty citation list it returns the empty list unconditionally.
Without the marker bound the ascending-order clause fails
(set-iteration order takes over, see the counterexample). -/
theorem citation_filter_amended (response_text : String)
    (citations : List Citation)
    (hsmall : ∀ m ∈ findMarkers response_text.data, m < 8) :
    filter_unused_citations response_text citations =
      filter_citations_asSpec response_text citations ∧
    filter_unused_citations response_text [] = [] := by
  constructor
  · by_cases hnil : citations = []
    · rw [hnil]
      simp [filter_unused_citations, filter_citations_asSpec]
    · obtain ⟨K, hK, hiff⟩ :=
        pySetOfList_ok (findMarkers response_text.data) hsmall
      unfold filter_unused_citations
      rw [if_neg hnil]
      dsimp only
      rw [pySetToList_ok _ _ hK, foldl_citation_append, List.nil_append,
        List.filterMap_filterMap]
      unfold filter_citations_asSpec
      trans ((List.range 8).filterMap (fun j =>
        if j ∈ findMarkers response_text.data ∧ 1 ≤ j ∧
            j - 1 < citations.length then
          some (citations.getD (j - 1) ⟨"", "", ""⟩)
        else none))
      · refine filterMap_ext_mem _ _ _ (fun x _ => ?_)
        by_cases hxK : x ∈ K
        · rw [if_pos hxK]
          show (if 1 ≤ x ∧ x - 1 < citations.length then
              some (citations.getD (x - 1) ⟨"", "", ""⟩) else none) = _
          by_cases hq : 1 ≤ x ∧ x - 1 < citations.length
          · rw [if_pos hq, if_pos ⟨(hiff x).mp hxK, hq⟩]
          · rw [if_neg hq, if_neg (fun hc => hq hc.2)]
        · rw [if_neg hxK]
          show (none : Option Citation) = _
          rw [if_neg (fun hc => hxK ((hiff x).mpr hc.1))]
      trans ((List.range 7).filterMap (fun j =>
        if (j + 1) ∈ findMarkers response_text.data ∧
            j < citations.length then
          some (citations.getD j ⟨"", "", ""⟩)
        else none))
      · have hshift := filterMap_range_succ_shift
          (fun j =>
            if j ∈ findMarkers response_text.data ∧ 1 ≤ j ∧
                j - 1 < citations.length then
              some (citations.getD (j - 1) ⟨"", "", ""⟩)
            else none) 7 (if_neg (fun hc => absurd hc.2.1 (by omega)))
        rw [show (8 : Nat) = 7 + 1 from rfl, hshift]
        refine filterMap_ext_mem _ _ _ (fun x _ => ?_)
        show (if (x + 1) ∈ findMarkers response_text.data ∧ 1 ≤ x + 1 ∧
            x + 1 - 1 < citations.length then
          some (citations.getD (x + 1 - 1) ⟨"", "", ""⟩)
        else none) = _
        simp only [Nat.add_sub_cancel]
        have hiff2 : ((x + 1) ∈ findMarkers response_text.data ∧ 1 ≤ x + 1 ∧
            x < citations.length) ↔
            ((x + 1) ∈ findMarkers response_text.data ∧ x < citations.length) := by
          constructor
          · rintro ⟨h1, _, h3⟩
            exact ⟨h1, h3⟩
          · rintro ⟨h1, h3⟩
            exact ⟨h1, by omega, h3⟩
        exact if_congr hiff2 rfl rfl
      by_cases hn : citations.length ≤ 7
      · rw [filterMap_range_trim citations.length _ 7 hn
          (fun j hj => if_neg (fun hc => absurd hc.2 (by omega)))]
        refine filterMap_ext_mem _ _ _ (fun x hx => ?_)
        rw [List.mem_range] at hx
        by_cases hm : (x + 1) ∈ findMarkers response_text.data
        · rw [if_pos ⟨hm, hx⟩, if_pos hm]
        · rw [if_neg (fun hc => hm hc.1), if_neg hm]
      · rw [filterMap_range_trim 7 _ citations.length (by omega)
          (fun j hj => if_neg (fun hc => absurd (hsmall _ hc) (by omega)))]
        refine filterMap_ext_mem _ _ _ (fun x hx => ?_)
        rw [List.mem_range] at hx
        by_cases hm : (x + 1) ∈ findMarkers response_text.data
        · rw [if_pos ⟨hm, by omega⟩, if_pos hm]
        · rw [if_neg (fun hc => hm hc.1), if_neg hm]
  · rfl

/-- Witness for C1 at a concrete input: the prose `"See [2] and [1]."`
has markers 2 and 1 (both below 8), and the filter output agrees with
the spec-ordered filter on the eight-citation fixture. -/
theorem citation_filter_amended_witness :
    (∀ m ∈ findMarkers (String.data "See [2] and [1]."), m < 8) ∧
    (filter_unused_citations "See [2] and [1]." citationsEight =
      filter_citations_asSpec "See [2] and [1]." citationsEight ∧
     filter_unused_citations "See [2] and [1]." [] = []) :=
  ⟨by decide, citation_filter_amended "See [2] and [1]." citationsEight (by decide)⟩

end MovieMaestro
